import Mathlib

/-!
Shallow embedding of the 6502/NES emulator core (cpu6502.c, opcodes.c,
ppu.c, cartridge.c, nes main.c) and proofs about the specified behavior.

Machine integers are modelled as `Nat` with explicit reduction:
`uint8` values are kept `< 256` by reducing mod 256 exactly where the C
type system performs a conversion, `uint16` mod 65536, `uint64` mod 2^64.
Byte arrays are modelled as functions `Nat → Nat` whose reads are reduced
mod 256 (the cell type is `uint8_t`).
-/

namespace Emu

/-! ### Small arithmetic / bitwise helper lemmas -/

theorem land_255 (x : Nat) : x &&& 255 = x % 256 := by
  have h := Nat.and_pow_two_sub_one_eq_mod x 8
  norm_num at h
  exact h

theorem land_15 (x : Nat) : x &&& 15 = x % 16 := by
  have h := Nat.and_pow_two_sub_one_eq_mod x 4
  norm_num at h
  exact h

theorem shiftRight_4 (x : Nat) : x >>> 4 = x / 16 := by
  have h := Nat.shiftRight_eq_div_pow x 4
  norm_num at h
  exact h

theorem shiftLeft_4 (x : Nat) : x <<< 4 = x * 16 := by
  have h := Nat.shiftLeft_eq x 4
  norm_num at h
  exact h

theorem shiftLeft_8 (x : Nat) : x <<< 8 = x * 256 := by
  have h := Nat.shiftLeft_eq x 8
  norm_num at h
  exact h

theorem lor_byte_lo (hi lo : Nat) (h : lo < 256) :
    (hi <<< 8) ||| lo = 256 * hi + lo := by
  rw [shiftLeft_8, Nat.mul_comm hi 256]
  have h2 := Nat.mul_add_lt_is_or (i := 8) (a := hi) (b := lo) (by norm_num [h])
  norm_num at h2
  exact h2.symm

theorem lor_nib_lo (hi lo : Nat) (h : lo < 16) :
    (hi <<< 4) ||| lo = 16 * hi + lo := by
  rw [shiftLeft_4, Nat.mul_comm hi 16]
  have h2 := Nat.mul_add_lt_is_or (i := 4) (a := hi) (b := lo) (by norm_num [h])
  norm_num at h2
  exact h2.symm

theorem and_and_128_ne (x y : Nat) :
    (((x &&& y) &&& 128) ≠ 0) ↔ (x.testBit 7 ∧ y.testBit 7) := by
  have h : (128 : Nat) = 2 ^ 7 := by norm_num
  rw [h, Nat.and_two_pow]
  rcases hx : (x &&& y).testBit 7 with _ | _ <;>
    simp_all [Nat.testBit_and]

theorem and_128_ne (x : Nat) : ((x &&& 128) ≠ 0) ↔ x.testBit 7 := by
  have h : (128 : Nat) = 2 ^ 7 := by norm_num
  rw [h, Nat.and_two_pow]
  rcases hx : x.testBit 7 with _ | _ <;> simp_all

theorem and_256_ne (x : Nat) : ((x &&& 256) ≠ 0) ↔ x.testBit 8 := by
  have h : (256 : Nat) = 2 ^ 8 := by norm_num
  rw [h, Nat.and_two_pow]
  rcases hx : x.testBit 8 with _ | _ <;> simp_all

theorem testBit_7_iff (x : Nat) (h : x < 256) : x.testBit 7 ↔ 128 ≤ x := by
  rw [Nat.testBit_to_div_mod]
  simp only [decide_eq_true_eq]
  omega

/-! ### 6502 CPU state (cpu6502.h `cpu6502_t`, minus the bus pointers,
which are made explicit parameters of every operation) -/

structure CPU where
  a : Nat
  x : Nat
  y : Nat
  sp : Nat
  pc : Nat
  status : Nat
  cycles : Nat
  halted : Bool
  page_crossed : Bool
deriving Repr, DecidableEq

/-- Abstract memory bus: the two function pointers `bus_read_fn` /
`bus_write_fn` of bus.h, with the threaded `void *ctx` made an explicit
state value of type `σ` (a read may mutate the context, as NES PPU
register reads do). -/
structure BusOps (σ : Type) where
  read : σ → Nat → Nat × σ
  write : σ → Nat → Nat → σ

/-- Combined machine state: the CPU plus the bus context. -/
structure Sys (σ : Type) where
  cpu : CPU
  env : σ

/-- uint64 modulus. -/
def M64 : Nat := 2 ^ 64

/-! Status flag masks (cpu6502.h). -/

def FLAG_C : Nat := 0x01
def FLAG_Z : Nat := 0x02
def FLAG_I : Nat := 0x04
def FLAG_D : Nat := 0x08
def FLAG_B : Nat := 0x10
def FLAG_U : Nat := 0x20
def FLAG_V : Nat := 0x40
def FLAG_N : Nat := 0x80

/-- `cpu_set_flag`: set or clear a mask bit in a status byte
(`status |= flag` / `status &= ~flag`, `~` on a uint8). -/
def set_flag (s flag : Nat) (b : Bool) : Nat :=
  if b then s ||| flag else s &&& (0xFF ^^^ flag)

/-- `cpu_get_flag`: `(status & flag) != 0`. -/
def get_flag (s flag : Nat) : Bool := s &&& flag ≠ 0

/-- `cpu_set_nz` on a status byte: N from bit 7 of `v`, Z from `v == 0`. -/
def set_nz (s v : Nat) : Nat :=
  set_flag (set_flag s FLAG_N (v &&& 0x80 ≠ 0)) FLAG_Z (v == 0)

def cpuSetFlag (cpu : CPU) (flag : Nat) (b : Bool) : CPU :=
  { cpu with status := set_flag cpu.status flag b }

def cpuSetNZ (cpu : CPU) (v : Nat) : CPU :=
  { cpu with status := set_nz cpu.status v }

/-- `cpu->cycles += n` (uint64). -/
def addCycles (cpu : CPU) (n : Nat) : CPU :=
  { cpu with cycles := (cpu.cycles + n) % M64 }

variable {σ : Type} (B : BusOps σ)

/-- `cpu_read`: go through the installed bus read function.  The `addr`
parameter is a `uint16_t` and the result a `uint8_t`, hence the two
reductions. -/
def cpu_read (s : Sys σ) (addr : Nat) : Nat × Sys σ :=
  let r := B.read s.env (addr % 65536)
  (r.1 % 256, ⟨s.cpu, r.2⟩)

/-- `cpu_write`. -/
def cpu_write (s : Sys σ) (addr val : Nat) : Sys σ :=
  ⟨s.cpu, B.write s.env (addr % 65536) (val % 256)⟩

/-- `cpu->pc++` (uint16). -/
def pcInc (s : Sys σ) : Sys σ :=
  ⟨{ s.cpu with pc := (s.cpu.pc + 1) % 65536 }, s.env⟩

/-- `cpu_read(cpu, cpu->pc++)`: fetch the byte at PC and advance PC. -/
def fetch (s : Sys σ) : Nat × Sys σ :=
  let r := cpu_read B s s.cpu.pc
  (r.1, pcInc r.2)

/-- `cpu_push`: write at `$0100 + sp`, then `sp--` (uint8). -/
def cpu_push (s : Sys σ) (val : Nat) : Sys σ :=
  let s1 := cpu_write B s (0x0100 + s.cpu.sp) val
  ⟨{ s1.cpu with sp := (s1.cpu.sp + 255) % 256 }, s1.env⟩

/-- `cpu_pull`: `sp++` (uint8), then read at `$0100 + sp`. -/
def cpu_pull (s : Sys σ) : Nat × Sys σ :=
  let sp1 := (s.cpu.sp + 1) % 256
  cpu_read B ⟨{ s.cpu with sp := sp1 }, s.env⟩ (0x0100 + sp1)

/-- `cpu_push16`: high byte first, then low byte. -/
def cpu_push16 (s : Sys σ) (val : Nat) : Sys σ :=
  let s1 := cpu_push B s ((val >>> 8) &&& 0xFF)
  cpu_push B s1 (val &&& 0xFF)

/-- `cpu_pull16`: low byte first, then high byte. -/
def cpu_pull16 (s : Sys σ) : Nat × Sys σ :=
  let lo := cpu_pull B s
  let hi := cpu_pull B lo.2
  ((hi.1 <<< 8) ||| lo.1, hi.2)

/-! ### Addressing mode helpers (opcodes.c §1).
Each returns the effective address and the advanced state. -/

/-- Immediate: the operand is the byte at PC; return PC, advance PC. -/
def addr_imm (s : Sys σ) : Nat × Sys σ :=
  (s.cpu.pc % 65536, pcInc s)

/-- Zero page. -/
def addr_zpg (s : Sys σ) : Nat × Sys σ := fetch B s

/-- Zero page,X: `(byte + X) & 0xFF`. -/
def addr_zpx (s : Sys σ) : Nat × Sys σ :=
  let r := fetch B s
  ((r.1 + r.2.cpu.x) &&& 0xFF, r.2)

/-- Zero page,Y. -/
def addr_zpy (s : Sys σ) : Nat × Sys σ :=
  let r := fetch B s
  ((r.1 + r.2.cpu.y) &&& 0xFF, r.2)

/-- Absolute: two-byte little-endian address. -/
def addr_abs (s : Sys σ) : Nat × Sys σ :=
  let lo := fetch B s
  let hi := fetch B lo.2
  ((hi.1 <<< 8) ||| lo.1, hi.2)

/-- Absolute,X with page-crossing detection (uint16 addition). -/
def addr_abx (s : Sys σ) : Nat × Sys σ :=
  let b := addr_abs B s
  let addr := (b.1 + b.2.cpu.x) % 65536
  (addr, ⟨{ b.2.cpu with page_crossed := b.1 &&& 0xFF00 ≠ addr &&& 0xFF00 }, b.2.env⟩)

/-- Absolute,Y with page-crossing detection. -/
def addr_aby (s : Sys σ) : Nat × Sys σ :=
  let b := addr_abs B s
  let addr := (b.1 + b.2.cpu.y) % 65536
  (addr, ⟨{ b.2.cpu with page_crossed := b.1 &&& 0xFF00 ≠ addr &&& 0xFF00 }, b.2.env⟩)

/-- (Indirect,X): zero-page pointer with X offset; high-byte fetch wraps. -/
def addr_izx (s : Sys σ) : Nat × Sys σ :=
  let p := fetch B s
  let ptr := (p.1 + p.2.cpu.x) &&& 0xFF
  let lo := cpu_read B p.2 ptr
  let hi := cpu_read B lo.2 ((ptr + 1) &&& 0xFF)
  ((hi.1 <<< 8) ||| lo.1, hi.2)

/-- (Indirect),Y: zero-page pointer, then add Y with page-crossing flag. -/
def addr_izy (s : Sys σ) : Nat × Sys σ :=
  let p := fetch B s
  let lo := cpu_read B p.2 p.1
  let hi := cpu_read B lo.2 ((p.1 + 1) &&& 0xFF)
  let base := (hi.1 <<< 8) ||| lo.1
  let addr := (base + hi.2.cpu.y) % 65536
  (addr, ⟨{ hi.2.cpu with page_crossed := base &&& 0xFF00 ≠ addr &&& 0xFF00 }, hi.2.env⟩)

/-! ### Shared instruction cores (opcodes.c §2).
These touch only the CPU record, never the bus. -/

/-- `do_adc`: add with carry, binary and decimal (NMOS) modes.
In the V computation the C code takes `~` of an `int` whose value is the
byte `a ^ val`; only bit 7 survives the `& 0x80`, so the complement is
rendered as `0xFF ^^^ ·`. -/
def do_adc (cpu : CPU) (val : Nat) : CPU :=
  if get_flag cpu.status FLAG_D then
    let a := cpu.a
    let carry := if get_flag cpu.status FLAG_C then 1 else 0
    let bin := a + val + carry
    let st1 := set_flag cpu.status FLAG_Z ((bin &&& 0xFF) == 0)
    let al0 := (a &&& 0x0F) + (val &&& 0x0F) + carry
    let al := if al0 > 9 then al0 + 6 else al0
    let ah0 := (a >>> 4) + (val >>> 4) + (if al > 0x0F then 1 else 0)
    let nvbase := ((ah0 <<< 4) ||| (al &&& 0x0F)) % 256
    let st2 := set_flag st1 FLAG_N (nvbase &&& 0x80 ≠ 0)
    let st3 := set_flag st2 FLAG_V
      (((0xFF ^^^ (a ^^^ val)) &&& (a ^^^ (ah0 <<< 4)) &&& 0x80) ≠ 0)
    let ah := if ah0 > 9 then ah0 + 6 else ah0
    let st4 := set_flag st3 FLAG_C (decide (ah > 0x0F))
    { cpu with a := (((ah &&& 0x0F) <<< 4) ||| (al &&& 0x0F)) % 256, status := st4 }
  else
    let sum := cpu.a + val + (if get_flag cpu.status FLAG_C then 1 else 0)
    let st1 := set_flag cpu.status FLAG_V
      (((0xFF ^^^ (cpu.a ^^^ val)) &&& (cpu.a ^^^ sum) &&& 0x80) ≠ 0)
    let st2 := set_flag st1 FLAG_C (decide (sum > 0xFF))
    let a2 := sum &&& 0xFF
    { cpu with a := a2, status := set_nz st2 a2 }

/-- The nibble-adjustment block of decimal `do_sbc` (the `al`/`ah`
locals and the final assignment to `cpu->a`).  The C `int`s may go
negative, modelled with `Int`; `x & 0x0F` on a two's complement `int`
is `x % 16` (`Int.emod`). -/
def sbc_dec_a (a val borrow : Nat) : Nat :=
  let al0 : Int := ((a &&& 0x0F : Nat) : Int) - ((val &&& 0x0F : Nat) : Int) - borrow
  let al : Int := if al0 < 0 then ((al0 - 6) % 16) - 16 else al0
  let ah0 : Int := ((a >>> 4 : Nat) : Int) - ((val >>> 4 : Nat) : Int) +
    (if al < 0 then -1 else 0)
  let ah : Int := if ah0 < 0 then ah0 - 6 else ah0
  (((ah % 16).toNat <<< 4) ||| (al % 16).toNat) % 256

/-- `do_sbc`: subtract with borrow. -/
def do_sbc (cpu : CPU) (val : Nat) : CPU :=
  if get_flag cpu.status FLAG_D then
    let a := cpu.a
    let borrow : Nat := if get_flag cpu.status FLAG_C then 0 else 1
    let bin := (((a : Int) - (val : Int) - (borrow : Int)) % 65536).toNat
    let st1 := set_flag cpu.status FLAG_C ((bin &&& 0x100) == 0)
    let st2 := set_flag st1 FLAG_Z ((bin &&& 0xFF) == 0)
    let st3 := set_flag st2 FLAG_N ((bin &&& 0x80) ≠ 0)
    let st4 := set_flag st3 FLAG_V (((a ^^^ val) &&& (a ^^^ bin) &&& 0x80) ≠ 0)
    { cpu with
      a := sbc_dec_a a val borrow,
      status := st4 }
  else
    do_adc cpu (val ^^^ 0xFF)

/-- `do_cmp`: compare a register with a value (`result` is a uint16). -/
def do_cmp (cpu : CPU) (reg val : Nat) : CPU :=
  let result := (((reg : Int) - (val : Int)) % 65536).toNat
  let st1 := set_flag cpu.status FLAG_C (decide (reg ≥ val))
  let st2 := set_flag st1 FLAG_Z (reg == val)
  { cpu with status := set_flag st2 FLAG_N ((result &&& 0x80) ≠ 0) }

/-- `do_and`. -/
def do_and (cpu : CPU) (val : Nat) : CPU :=
  let a2 := cpu.a &&& val
  { cpu with a := a2, status := set_nz cpu.status a2 }

/-- `do_ora`. -/
def do_ora (cpu : CPU) (val : Nat) : CPU :=
  let a2 := cpu.a ||| val
  { cpu with a := a2, status := set_nz cpu.status a2 }

/-- `do_eor`. -/
def do_eor (cpu : CPU) (val : Nat) : CPU :=
  let a2 := cpu.a ^^^ val
  { cpu with a := a2, status := set_nz cpu.status a2 }

/-- `do_asl`: returns the shifted value (uint8) and the CPU with flags. -/
def do_asl (cpu : CPU) (val : Nat) : Nat × CPU :=
  let st1 := set_flag cpu.status FLAG_C ((val &&& 0x80) ≠ 0)
  let v2 := (val <<< 1) % 256
  (v2, { cpu with status := set_nz st1 v2 })

/-- `do_lsr`. -/
def do_lsr (cpu : CPU) (val : Nat) : Nat × CPU :=
  let st1 := set_flag cpu.status FLAG_C ((val &&& 0x01) ≠ 0)
  let v2 := val >>> 1
  (v2, { cpu with status := set_nz st1 v2 })

/-- `do_rol`. -/
def do_rol (cpu : CPU) (val : Nat) : Nat × CPU :=
  let oldc := if get_flag cpu.status FLAG_C then 1 else 0
  let st1 := set_flag cpu.status FLAG_C ((val &&& 0x80) ≠ 0)
  let v2 := ((val <<< 1) ||| oldc) % 256
  (v2, { cpu with status := set_nz st1 v2 })

/-- `do_ror`. -/
def do_ror (cpu : CPU) (val : Nat) : Nat × CPU :=
  let oldc := if get_flag cpu.status FLAG_C then 0x80 else 0
  let st1 := set_flag cpu.status FLAG_C ((val &&& 0x01) ≠ 0)
  let v2 := (val >>> 1) ||| oldc
  (v2, { cpu with status := set_nz st1 v2 })

/-! ### Opcode handler shapes.
The C handlers are textually repetitive; each shares one of the
following shapes (addressing-mode call + core + optional page-cross
cycle penalty).  Each named handler below is one C handler. -/

/-- Shape of every load/ALU read handler without penalty. -/
def readOp (mode : Sys σ → Nat × Sys σ) (core : CPU → Nat → CPU) (s : Sys σ) : Sys σ :=
  let a := mode s
  let v := cpu_read B a.2 a.1
  ⟨core v.2.cpu v.1, v.2.env⟩

/-- Shape of read handlers with `if (cpu->page_crossed) cpu->cycles++`. -/
def readOpPX (mode : Sys σ → Nat × Sys σ) (core : CPU → Nat → CPU) (s : Sys σ) : Sys σ :=
  let s1 := readOp B mode core s
  if s1.cpu.page_crossed then ⟨addCycles s1.cpu 1, s1.env⟩ else s1

/-- Shape of every store handler. -/
def storeOp (mode : Sys σ → Nat × Sys σ) (sel : CPU → Nat) (s : Sys σ) : Sys σ :=
  let a := mode s
  cpu_write B a.2 a.1 (sel a.2.cpu)

/-- Shape of every read-modify-write handler (no page-cross penalty). -/
def rmwOp (mode : Sys σ → Nat × Sys σ) (core : CPU → Nat → Nat × CPU) (s : Sys σ) : Sys σ :=
  let a := mode s
  let v := cpu_read B a.2 a.1
  let r := core v.2.cpu v.1
  cpu_write B ⟨r.2, v.2.env⟩ a.1 r.1

/-- Shape of every bus-free handler. -/
def impliedOp (f : CPU → CPU) (s : Sys σ) : Sys σ :=
  ⟨f s.cpu, s.env⟩

/-- Shape of the eight branch handlers: read a signed 8-bit offset; if
the selected flag has the wanted value, branch (+1 cycle, and one more
when the target is on a different page than the post-operand PC). -/
def branchOp (flag : Nat) (want : Bool) (s : Sys σ) : Sys σ :=
  let off := fetch B s
  let cpu := off.2.cpu
  if get_flag cpu.status flag = want then
    let old_pc := cpu.pc
    let target := (cpu.pc + (if off.1 < 128 then off.1 else off.1 + 65280)) % 65536
    let cpu1 := addCycles { cpu with pc := target } 1
    let cpu2 := if old_pc &&& 0xFF00 ≠ target &&& 0xFF00 then addCycles cpu1 1 else cpu1
    ⟨cpu2, off.2.env⟩
  else off.2

/-! Family cores. -/

def lda_core (cpu : CPU) (v : Nat) : CPU := cpuSetNZ { cpu with a := v } v
def ldx_core (cpu : CPU) (v : Nat) : CPU := cpuSetNZ { cpu with x := v } v
def ldy_core (cpu : CPU) (v : Nat) : CPU := cpuSetNZ { cpu with y := v } v
def adc_core (cpu : CPU) (v : Nat) : CPU := do_adc cpu v
def sbc_core (cpu : CPU) (v : Nat) : CPU := do_sbc cpu v
def cmp_core (cpu : CPU) (v : Nat) : CPU := do_cmp cpu cpu.a v
def cpx_core (cpu : CPU) (v : Nat) : CPU := do_cmp cpu cpu.x v
def cpy_core (cpu : CPU) (v : Nat) : CPU := do_cmp cpu cpu.y v
def and_core (cpu : CPU) (v : Nat) : CPU := do_and cpu v
def ora_core (cpu : CPU) (v : Nat) : CPU := do_ora cpu v
def eor_core (cpu : CPU) (v : Nat) : CPU := do_eor cpu v

def bit_core (cpu : CPU) (v : Nat) : CPU :=
  { cpu with status :=
      set_flag (set_flag (set_flag cpu.status FLAG_Z ((cpu.a &&& v) == 0))
        FLAG_N ((v &&& 0x80) ≠ 0)) FLAG_V ((v &&& 0x40) ≠ 0) }

def inc_core (cpu : CPU) (v : Nat) : Nat × CPU :=
  let v2 := (v + 1) % 256
  (v2, cpuSetNZ cpu v2)

def dec_core (cpu : CPU) (v : Nat) : Nat × CPU :=
  let v2 := (v + 255) % 256
  (v2, cpuSetNZ cpu v2)

/-! Individual handlers (opcodes.c §3). -/

def op_ill (s : Sys σ) : Sys σ := ⟨{ s.cpu with halted := true }, s.env⟩

def op_lda_imm : Sys σ → Sys σ := readOp B (addr_imm) lda_core
def op_lda_zpg : Sys σ → Sys σ := readOp B (addr_zpg B) lda_core
def op_lda_zpx : Sys σ → Sys σ := readOp B (addr_zpx B) lda_core
def op_lda_abs : Sys σ → Sys σ := readOp B (addr_abs B) lda_core
def op_lda_abx : Sys σ → Sys σ := readOpPX B (addr_abx B) lda_core
def op_lda_aby : Sys σ → Sys σ := readOpPX B (addr_aby B) lda_core
def op_lda_izx : Sys σ → Sys σ := readOp B (addr_izx B) lda_core
def op_lda_izy : Sys σ → Sys σ := readOpPX B (addr_izy B) lda_core

def op_ldx_imm : Sys σ → Sys σ := readOp B (addr_imm) ldx_core
def op_ldx_zpg : Sys σ → Sys σ := readOp B (addr_zpg B) ldx_core
def op_ldx_zpy : Sys σ → Sys σ := readOp B (addr_zpy B) ldx_core
def op_ldx_abs : Sys σ → Sys σ := readOp B (addr_abs B) ldx_core
def op_ldx_aby : Sys σ → Sys σ := readOpPX B (addr_aby B) ldx_core

def op_ldy_imm : Sys σ → Sys σ := readOp B (addr_imm) ldy_core
def op_ldy_zpg : Sys σ → Sys σ := readOp B (addr_zpg B) ldy_core
def op_ldy_zpx : Sys σ → Sys σ := readOp B (addr_zpx B) ldy_core
def op_ldy_abs : Sys σ → Sys σ := readOp B (addr_abs B) ldy_core
def op_ldy_abx : Sys σ → Sys σ := readOpPX B (addr_abx B) ldy_core

def op_sta_zpg : Sys σ → Sys σ := storeOp B (addr_zpg B) CPU.a
def op_sta_zpx : Sys σ → Sys σ := storeOp B (addr_zpx B) CPU.a
def op_sta_abs : Sys σ → Sys σ := storeOp B (addr_abs B) CPU.a
def op_sta_abx : Sys σ → Sys σ := storeOp B (addr_abx B) CPU.a
def op_sta_aby : Sys σ → Sys σ := storeOp B (addr_aby B) CPU.a
def op_sta_izx : Sys σ → Sys σ := storeOp B (addr_izx B) CPU.a
def op_sta_izy : Sys σ → Sys σ := storeOp B (addr_izy B) CPU.a

def op_stx_zpg : Sys σ → Sys σ := storeOp B (addr_zpg B) CPU.x
def op_stx_zpy : Sys σ → Sys σ := storeOp B (addr_zpy B) CPU.x
def op_stx_abs : Sys σ → Sys σ := storeOp B (addr_abs B) CPU.x

def op_sty_zpg : Sys σ → Sys σ := storeOp B (addr_zpg B) CPU.y
def op_sty_zpx : Sys σ → Sys σ := storeOp B (addr_zpx B) CPU.y
def op_sty_abs : Sys σ → Sys σ := storeOp B (addr_abs B) CPU.y

def op_adc_imm : Sys σ → Sys σ := readOp B (addr_imm) adc_core
def op_adc_zpg : Sys σ → Sys σ := readOp B (addr_zpg B) adc_core
def op_adc_zpx : Sys σ → Sys σ := readOp B (addr_zpx B) adc_core
def op_adc_abs : Sys σ → Sys σ := readOp B (addr_abs B) adc_core
def op_adc_abx : Sys σ → Sys σ := readOpPX B (addr_abx B) adc_core
def op_adc_aby : Sys σ → Sys σ := readOpPX B (addr_aby B) adc_core
def op_adc_izx : Sys σ → Sys σ := readOp B (addr_izx B) adc_core
def op_adc_izy : Sys σ → Sys σ := readOpPX B (addr_izy B) adc_core

def op_sbc_imm : Sys σ → Sys σ := readOp B (addr_imm) sbc_core
def op_sbc_zpg : Sys σ → Sys σ := readOp B (addr_zpg B) sbc_core
def op_sbc_zpx : Sys σ → Sys σ := readOp B (addr_zpx B) sbc_core
def op_sbc_abs : Sys σ → Sys σ := readOp B (addr_abs B) sbc_core
def op_sbc_abx : Sys σ → Sys σ := readOpPX B (addr_abx B) sbc_core
def op_sbc_aby : Sys σ → Sys σ := readOpPX B (addr_aby B) sbc_core
def op_sbc_izx : Sys σ → Sys σ := readOp B (addr_izx B) sbc_core
def op_sbc_izy : Sys σ → Sys σ := readOpPX B (addr_izy B) sbc_core

def op_cmp_imm : Sys σ → Sys σ := readOp B (addr_imm) cmp_core
def op_cmp_zpg : Sys σ → Sys σ := readOp B (addr_zpg B) cmp_core
def op_cmp_zpx : Sys σ → Sys σ := readOp B (addr_zpx B) cmp_core
def op_cmp_abs : Sys σ → Sys σ := readOp B (addr_abs B) cmp_core
def op_cmp_abx : Sys σ → Sys σ := readOpPX B (addr_abx B) cmp_core
def op_cmp_aby : Sys σ → Sys σ := readOpPX B (addr_aby B) cmp_core
def op_cmp_izx : Sys σ → Sys σ := readOp B (addr_izx B) cmp_core
def op_cmp_izy : Sys σ → Sys σ := readOpPX B (addr_izy B) cmp_core

def op_cpx_imm : Sys σ → Sys σ := readOp B (addr_imm) cpx_core
def op_cpx_zpg : Sys σ → Sys σ := readOp B (addr_zpg B) cpx_core
def op_cpx_abs : Sys σ → Sys σ := readOp B (addr_abs B) cpx_core

def op_cpy_imm : Sys σ → Sys σ := readOp B (addr_imm) cpy_core
def op_cpy_zpg : Sys σ → Sys σ := readOp B (addr_zpg B) cpy_core
def op_cpy_abs : Sys σ → Sys σ := readOp B (addr_abs B) cpy_core

def op_and_imm : Sys σ → Sys σ := readOp B (addr_imm) and_core
def op_and_zpg : Sys σ → Sys σ := readOp B (addr_zpg B) and_core
def op_and_zpx : Sys σ → Sys σ := readOp B (addr_zpx B) and_core
def op_and_abs : Sys σ → Sys σ := readOp B (addr_abs B) and_core
def op_and_abx : Sys σ → Sys σ := readOpPX B (addr_abx B) and_core
def op_and_aby : Sys σ → Sys σ := readOpPX B (addr_aby B) and_core
def op_and_izx : Sys σ → Sys σ := readOp B (addr_izx B) and_core
def op_and_izy : Sys σ → Sys σ := readOpPX B (addr_izy B) and_core

def op_eor_imm : Sys σ → Sys σ := readOp B (addr_imm) eor_core
def op_eor_zpg : Sys σ → Sys σ := readOp B (addr_zpg B) eor_core
def op_eor_zpx : Sys σ → Sys σ := readOp B (addr_zpx B) eor_core
def op_eor_abs : Sys σ → Sys σ := readOp B (addr_abs B) eor_core
def op_eor_abx : Sys σ → Sys σ := readOpPX B (addr_abx B) eor_core
def op_eor_aby : Sys σ → Sys σ := readOpPX B (addr_aby B) eor_core
def op_eor_izx : Sys σ → Sys σ := readOp B (addr_izx B) eor_core
def op_eor_izy : Sys σ → Sys σ := readOpPX B (addr_izy B) eor_core

def op_ora_imm : Sys σ → Sys σ := readOp B (addr_imm) ora_core
def op_ora_zpg : Sys σ → Sys σ := readOp B (addr_zpg B) ora_core
def op_ora_zpx : Sys σ → Sys σ := readOp B (addr_zpx B) ora_core
def op_ora_abs : Sys σ → Sys σ := readOp B (addr_abs B) ora_core
def op_ora_abx : Sys σ → Sys σ := readOpPX B (addr_abx B) ora_core
def op_ora_aby : Sys σ → Sys σ := readOpPX B (addr_aby B) ora_core
def op_ora_izx : Sys σ → Sys σ := readOp B (addr_izx B) ora_core
def op_ora_izy : Sys σ → Sys σ := readOpPX B (addr_izy B) ora_core

def op_bit_zpg : Sys σ → Sys σ := readOp B (addr_zpg B) bit_core
def op_bit_abs : Sys σ → Sys σ := readOp B (addr_abs B) bit_core

def op_asl_acc : Sys σ → Sys σ :=
  impliedOp (fun cpu => let r := do_asl cpu cpu.a; { r.2 with a := r.1 })
def op_asl_zpg : Sys σ → Sys σ := rmwOp B (addr_zpg B) do_asl
def op_asl_zpx : Sys σ → Sys σ := rmwOp B (addr_zpx B) do_asl
def op_asl_abs : Sys σ → Sys σ := rmwOp B (addr_abs B) do_asl
def op_asl_abx : Sys σ → Sys σ := rmwOp B (addr_abx B) do_asl

def op_lsr_acc : Sys σ → Sys σ :=
  impliedOp (fun cpu => let r := do_lsr cpu cpu.a; { r.2 with a := r.1 })
def op_lsr_zpg : Sys σ → Sys σ := rmwOp B (addr_zpg B) do_lsr
def op_lsr_zpx : Sys σ → Sys σ := rmwOp B (addr_zpx B) do_lsr
def op_lsr_abs : Sys σ → Sys σ := rmwOp B (addr_abs B) do_lsr
def op_lsr_abx : Sys σ → Sys σ := rmwOp B (addr_abx B) do_lsr

def op_rol_acc : Sys σ → Sys σ :=
  impliedOp (fun cpu => let r := do_rol cpu cpu.a; { r.2 with a := r.1 })
def op_rol_zpg : Sys σ → Sys σ := rmwOp B (addr_zpg B) do_rol
def op_rol_zpx : Sys σ → Sys σ := rmwOp B (addr_zpx B) do_rol
def op_rol_abs : Sys σ → Sys σ := rmwOp B (addr_abs B) do_rol
def op_rol_abx : Sys σ → Sys σ := rmwOp B (addr_abx B) do_rol

def op_ror_acc : Sys σ → Sys σ :=
  impliedOp (fun cpu => let r := do_ror cpu cpu.a; { r.2 with a := r.1 })
def op_ror_zpg : Sys σ → Sys σ := rmwOp B (addr_zpg B) do_ror
def op_ror_zpx : Sys σ → Sys σ := rmwOp B (addr_zpx B) do_ror
def op_ror_abs : Sys σ → Sys σ := rmwOp B (addr_abs B) do_ror
def op_ror_abx : Sys σ → Sys σ := rmwOp B (addr_abx B) do_ror

def op_inc_zpg : Sys σ → Sys σ := rmwOp B (addr_zpg B) inc_core
def op_inc_zpx : Sys σ → Sys σ := rmwOp B (addr_zpx B) inc_core
def op_inc_abs : Sys σ → Sys σ := rmwOp B (addr_abs B) inc_core
def op_inc_abx : Sys σ → Sys σ := rmwOp B (addr_abx B) inc_core

def op_dec_zpg : Sys σ → Sys σ := rmwOp B (addr_zpg B) dec_core
def op_dec_zpx : Sys σ → Sys σ := rmwOp B (addr_zpx B) dec_core
def op_dec_abs : Sys σ → Sys σ := rmwOp B (addr_abs B) dec_core
def op_dec_abx : Sys σ → Sys σ := rmwOp B (addr_abx B) dec_core

def op_inx : Sys σ → Sys σ :=
  impliedOp (fun cpu => cpuSetNZ { cpu with x := (cpu.x + 1) % 256 } ((cpu.x + 1) % 256))
def op_iny : Sys σ → Sys σ :=
  impliedOp (fun cpu => cpuSetNZ { cpu with y := (cpu.y + 1) % 256 } ((cpu.y + 1) % 256))
def op_dex : Sys σ → Sys σ :=
  impliedOp (fun cpu => cpuSetNZ { cpu with x := (cpu.x + 255) % 256 } ((cpu.x + 255) % 256))
def op_dey : Sys σ → Sys σ :=
  impliedOp (fun cpu => cpuSetNZ { cpu with y := (cpu.y + 255) % 256 } ((cpu.y + 255) % 256))

def op_bpl : Sys σ → Sys σ := branchOp B FLAG_N false
def op_bmi : Sys σ → Sys σ := branchOp B FLAG_N true
def op_bvc : Sys σ → Sys σ := branchOp B FLAG_V false
def op_bvs : Sys σ → Sys σ := branchOp B FLAG_V true
def op_bcc : Sys σ → Sys σ := branchOp B FLAG_C false
def op_bcs : Sys σ → Sys σ := branchOp B FLAG_C true
def op_bne : Sys σ → Sys σ := branchOp B FLAG_Z false
def op_beq : Sys σ → Sys σ := branchOp B FLAG_Z true

def op_jmp_abs (s : Sys σ) : Sys σ :=
  let a := addr_abs B s
  ⟨{ a.2.cpu with pc := a.1 }, a.2.env⟩

/-- JMP indirect with the NMOS page boundary bug: the high byte is read
from `(ptr & 0xFF00) | ((ptr + 1) & 0x00FF)`. -/
def op_jmp_ind (s : Sys σ) : Sys σ :=
  let p := addr_abs B s
  let lo := cpu_read B p.2 p.1
  let hi := cpu_read B lo.2 ((p.1 &&& 0xFF00) ||| ((p.1 + 1) &&& 0x00FF))
  ⟨{ hi.2.cpu with pc := (hi.1 <<< 8) ||| lo.1 }, hi.2.env⟩

def op_jsr (s : Sys σ) : Sys σ :=
  let a := addr_abs B s
  let s1 := cpu_push16 B a.2 ((a.2.cpu.pc + 65535) % 65536)
  ⟨{ s1.cpu with pc := a.1 }, s1.env⟩

def op_rts (s : Sys σ) : Sys σ :=
  let r := cpu_pull16 B s
  ⟨{ r.2.cpu with pc := (r.1 + 1) % 65536 }, r.2.env⟩

def op_brk (s : Sys σ) : Sys σ :=
  let s1 := pcInc s
  let s2 := cpu_push16 B s1 s1.cpu.pc
  let s3 := cpu_push B s2 ((s2.cpu.status ||| FLAG_B) ||| FLAG_U)
  let s4 : Sys σ := ⟨cpuSetFlag s3.cpu FLAG_I true, s3.env⟩
  let lo := cpu_read B s4 0xFFFE
  let hi := cpu_read B lo.2 0xFFFF
  ⟨{ hi.2.cpu with pc := lo.1 ||| (hi.1 <<< 8) }, hi.2.env⟩

def op_rti (s : Sys σ) : Sys σ :=
  let st := cpu_pull B s
  let s1 : Sys σ := ⟨{ st.2.cpu with status := (st.1 ||| FLAG_U) &&& (0xFF ^^^ FLAG_B) }, st.2.env⟩
  let pc := cpu_pull16 B s1
  ⟨{ pc.2.cpu with pc := pc.1 }, pc.2.env⟩

def op_pha (s : Sys σ) : Sys σ := cpu_push B s s.cpu.a

def op_pla (s : Sys σ) : Sys σ :=
  let r := cpu_pull B s
  ⟨cpuSetNZ { r.2.cpu with a := r.1 } r.1, r.2.env⟩

def op_php (s : Sys σ) : Sys σ :=
  cpu_push B s ((s.cpu.status ||| FLAG_B) ||| FLAG_U)

def op_plp (s : Sys σ) : Sys σ :=
  let r := cpu_pull B s
  ⟨{ r.2.cpu with status := (r.1 ||| FLAG_U) &&& (0xFF ^^^ FLAG_B) }, r.2.env⟩

def op_tax : Sys σ → Sys σ := impliedOp (fun cpu => cpuSetNZ { cpu with x := cpu.a } cpu.a)
def op_tay : Sys σ → Sys σ := impliedOp (fun cpu => cpuSetNZ { cpu with y := cpu.a } cpu.a)
def op_txa : Sys σ → Sys σ := impliedOp (fun cpu => cpuSetNZ { cpu with a := cpu.x } cpu.x)
def op_tya : Sys σ → Sys σ := impliedOp (fun cpu => cpuSetNZ { cpu with a := cpu.y } cpu.y)
def op_tsx : Sys σ → Sys σ := impliedOp (fun cpu => cpuSetNZ { cpu with x := cpu.sp } cpu.sp)
def op_txs : Sys σ → Sys σ := impliedOp (fun cpu => { cpu with sp := cpu.x })

def op_clc : Sys σ → Sys σ := impliedOp (fun cpu => cpuSetFlag cpu FLAG_C false)
def op_sec : Sys σ → Sys σ := impliedOp (fun cpu => cpuSetFlag cpu FLAG_C true)
def op_cli : Sys σ → Sys σ := impliedOp (fun cpu => cpuSetFlag cpu FLAG_I false)
def op_sei : Sys σ → Sys σ := impliedOp (fun cpu => cpuSetFlag cpu FLAG_I true)
def op_cld : Sys σ → Sys σ := impliedOp (fun cpu => cpuSetFlag cpu FLAG_D false)
def op_sed : Sys σ → Sys σ := impliedOp (fun cpu => cpuSetFlag cpu FLAG_D true)
def op_clv : Sys σ → Sys σ := impliedOp (fun cpu => cpuSetFlag cpu FLAG_V false)

def op_nop : Sys σ → Sys σ := impliedOp id

/-- `opcode_table` (opcodes.c §4): dispatch on the opcode byte.  Every
entry not initialised in the C table designator list is `op_ill`, which
the catch-all arm provides. -/
def opcode_table (op : Nat) : Sys σ → Sys σ :=
  match op with
  | 0x00 => op_brk B    | 0x01 => op_ora_izx B | 0x05 => op_ora_zpg B | 0x06 => op_asl_zpg B
  | 0x08 => op_php B    | 0x09 => op_ora_imm B | 0x0A => op_asl_acc   | 0x0D => op_ora_abs B
  | 0x0E => op_asl_abs B
  | 0x10 => op_bpl B    | 0x11 => op_ora_izy B | 0x15 => op_ora_zpx B | 0x16 => op_asl_zpx B
  | 0x18 => op_clc      | 0x19 => op_ora_aby B | 0x1D => op_ora_abx B | 0x1E => op_asl_abx B
  | 0x20 => op_jsr B    | 0x21 => op_and_izx B | 0x24 => op_bit_zpg B | 0x25 => op_and_zpg B
  | 0x26 => op_rol_zpg B| 0x28 => op_plp B     | 0x29 => op_and_imm B | 0x2A => op_rol_acc
  | 0x2C => op_bit_abs B| 0x2D => op_and_abs B | 0x2E => op_rol_abs B
  | 0x30 => op_bmi B    | 0x31 => op_and_izy B | 0x35 => op_and_zpx B | 0x36 => op_rol_zpx B
  | 0x38 => op_sec      | 0x39 => op_and_aby B | 0x3D => op_and_abx B | 0x3E => op_rol_abx B
  | 0x40 => op_rti B    | 0x41 => op_eor_izx B | 0x45 => op_eor_zpg B | 0x46 => op_lsr_zpg B
  | 0x48 => op_pha B    | 0x49 => op_eor_imm B | 0x4A => op_lsr_acc   | 0x4C => op_jmp_abs B
  | 0x4D => op_eor_abs B| 0x4E => op_lsr_abs B
  | 0x50 => op_bvc B    | 0x51 => op_eor_izy B | 0x55 => op_eor_zpx B | 0x56 => op_lsr_zpx B
  | 0x58 => op_cli      | 0x59 => op_eor_aby B | 0x5D => op_eor_abx B | 0x5E => op_lsr_abx B
  | 0x60 => op_rts B    | 0x61 => op_adc_izx B | 0x65 => op_adc_zpg B | 0x66 => op_ror_zpg B
  | 0x68 => op_pla B    | 0x69 => op_adc_imm B | 0x6A => op_ror_acc   | 0x6C => op_jmp_ind B
  | 0x6D => op_adc_abs B| 0x6E => op_ror_abs B
  | 0x70 => op_bvs B    | 0x71 => op_adc_izy B | 0x75 => op_adc_zpx B | 0x76 => op_ror_zpx B
  | 0x78 => op_sei      | 0x79 => op_adc_aby B | 0x7D => op_adc_abx B | 0x7E => op_ror_abx B
  | 0x81 => op_sta_izx B| 0x84 => op_sty_zpg B | 0x85 => op_sta_zpg B | 0x86 => op_stx_zpg B
  | 0x88 => op_dey      | 0x8A => op_txa       | 0x8C => op_sty_abs B | 0x8D => op_sta_abs B
  | 0x8E => op_stx_abs B
  | 0x90 => op_bcc B    | 0x91 => op_sta_izy B | 0x94 => op_sty_zpx B | 0x95 => op_sta_zpx B
  | 0x96 => op_stx_zpy B| 0x98 => op_tya       | 0x99 => op_sta_aby B | 0x9A => op_txs
  | 0x9D => op_sta_abx B
  | 0xA0 => op_ldy_imm B| 0xA1 => op_lda_izx B | 0xA2 => op_ldx_imm B | 0xA4 => op_ldy_zpg B
  | 0xA5 => op_lda_zpg B| 0xA6 => op_ldx_zpg B | 0xA8 => op_tay       | 0xA9 => op_lda_imm B
  | 0xAA => op_tax      | 0xAC => op_ldy_abs B | 0xAD => op_lda_abs B | 0xAE => op_ldx_abs B
  | 0xB0 => op_bcs B    | 0xB1 => op_lda_izy B | 0xB4 => op_ldy_zpx B | 0xB5 => op_lda_zpx B
  | 0xB6 => op_ldx_zpy B| 0xB8 => op_clv       | 0xB9 => op_lda_aby B | 0xBA => op_tsx
  | 0xBC => op_ldy_abx B| 0xBD => op_lda_abx B | 0xBE => op_ldx_aby B
  | 0xC0 => op_cpy_imm B| 0xC1 => op_cmp_izx B | 0xC4 => op_cpy_zpg B | 0xC5 => op_cmp_zpg B
  | 0xC6 => op_dec_zpg B| 0xC8 => op_iny       | 0xC9 => op_cmp_imm B | 0xCA => op_dex
  | 0xCC => op_cpy_abs B| 0xCD => op_cmp_abs B | 0xCE => op_dec_abs B
  | 0xD0 => op_bne B    | 0xD1 => op_cmp_izy B | 0xD5 => op_cmp_zpx B | 0xD6 => op_dec_zpx B
  | 0xD8 => op_cld      | 0xD9 => op_cmp_aby B | 0xDD => op_cmp_abx B | 0xDE => op_dec_abx B
  | 0xE0 => op_cpx_imm B| 0xE1 => op_sbc_izx B | 0xE4 => op_cpx_zpg B | 0xE5 => op_sbc_zpg B
  | 0xE6 => op_inc_zpg B| 0xE8 => op_inx       | 0xE9 => op_sbc_imm B | 0xEA => op_nop
  | 0xEC => op_cpx_abs B| 0xED => op_sbc_abs B | 0xEE => op_inc_abs B
  | 0xF0 => op_beq B    | 0xF1 => op_sbc_izy B | 0xF5 => op_sbc_zpx B | 0xF6 => op_inc_zpx B
  | 0xF8 => op_sed      | 0xF9 => op_sbc_aby B | 0xFD => op_sbc_abx B | 0xFE => op_inc_abx B
  | _ => op_ill

/-- `opcode_cycles` (opcodes.c §4): base cycle costs, row by row. -/
def opcode_cycles_list : List Nat :=
  [7,6,0,0,0,3,5,0,3,2,2,0,0,4,6,0,
   2,5,0,0,0,4,6,0,2,4,0,0,0,4,7,0,
   6,6,0,0,3,3,5,0,4,2,2,0,4,4,6,0,
   2,5,0,0,0,4,6,0,2,4,0,0,0,4,7,0,
   6,6,0,0,0,3,5,0,3,2,2,0,3,4,6,0,
   2,5,0,0,0,4,6,0,2,4,0,0,0,4,7,0,
   6,6,0,0,0,3,5,0,4,2,2,0,5,4,6,0,
   2,5,0,0,0,4,6,0,2,4,0,0,0,4,7,0,
   0,6,0,0,3,3,3,0,2,0,2,0,4,4,4,0,
   2,6,0,0,4,4,4,0,2,5,2,0,0,5,0,0,
   2,6,2,0,3,3,3,0,2,2,2,0,4,4,4,0,
   2,5,0,0,4,4,4,0,2,4,2,0,4,4,4,0,
   2,6,0,0,3,3,5,0,2,2,2,0,4,4,6,0,
   2,5,0,0,0,4,6,0,2,4,0,0,0,4,7,0,
   2,6,0,0,3,3,5,0,2,2,2,0,4,4,6,0,
   2,5,0,0,0,4,6,0,2,4,0,0,0,4,7,0]

def opcode_cycles (op : Nat) : Nat := opcode_cycles_list.getD op 0

/-- `cpu6502_step` (cpu6502.c): return when halted; clear
`page_crossed`; fetch the opcode; charge the base cycles; dispatch. -/
def cpu6502_step (s : Sys σ) : Sys σ :=
  if s.cpu.halted then s
  else
    let s0 : Sys σ := ⟨{ s.cpu with page_crossed := false }, s.env⟩
    let f := fetch B s0
    let s1 : Sys σ := ⟨addCycles f.2.cpu (opcode_cycles f.1), f.2.env⟩
    opcode_table B f.1 s1

/-- `cpu6502_irq`: masked by the I flag; push PC and status (B clear,
U set), set I, load the $FFFE/$FFFF vector, +7 cycles. -/
def cpu6502_irq (s : Sys σ) : Sys σ :=
  if get_flag s.cpu.status FLAG_I then s
  else
    let s1 := cpu_push16 B s s.cpu.pc
    let flags := (s1.cpu.status &&& (0xFF ^^^ FLAG_B)) ||| FLAG_U
    let s2 := cpu_push B s1 flags
    let s3 : Sys σ := ⟨cpuSetFlag s2.cpu FLAG_I true, s2.env⟩
    let lo := cpu_read B s3 0xFFFE
    let hi := cpu_read B lo.2 0xFFFF
    ⟨addCycles { hi.2.cpu with pc := (hi.1 <<< 8) ||| lo.1 } 7, hi.2.env⟩

/-- `cpu6502_nmi`: unconditional; vector $FFFA/$FFFB. -/
def cpu6502_nmi (s : Sys σ) : Sys σ :=
  let s1 := cpu_push16 B s s.cpu.pc
  let flags := (s1.cpu.status &&& (0xFF ^^^ FLAG_B)) ||| FLAG_U
  let s2 := cpu_push B s1 flags
  let s3 : Sys σ := ⟨cpuSetFlag s2.cpu FLAG_I true, s2.env⟩
  let lo := cpu_read B s3 0xFFFA
  let hi := cpu_read B lo.2 0xFFFB
  ⟨addCycles { hi.2.cpu with pc := (hi.1 <<< 8) ||| lo.1 } 7, hi.2.env⟩

/-- `cpu6502_reset`: load PC from $FFFC/$FFFD, `sp = 0xFD`, force I and
the unused bit, clear `halted`, +7 cycles. -/
def cpu6502_reset (s : Sys σ) : Sys σ :=
  let lo := cpu_read B s 0xFFFC
  let hi := cpu_read B lo.2 0xFFFD
  ⟨{ hi.2.cpu with
      pc := (hi.1 <<< 8) ||| lo.1,
      sp := 0xFD,
      status := (hi.2.cpu.status ||| FLAG_I) ||| FLAG_U,
      halted := false,
      cycles := (hi.2.cpu.cycles + 7) % M64 }, hi.2.env⟩

/-- `cpu6502_init`: the CPU record produced by init (registers zeroed,
`status = FLAG_U | FLAG_I`); bus installation is implicit here because
the bus is an explicit parameter of every operation. -/
def cpu6502_init : CPU :=
  { a := 0, x := 0, y := 0, sp := 0, pc := 0,
    status := FLAG_U ||| FLAG_I,
    cycles := 0, halted := false, page_crossed := false }

/-! ### Cartridge (cartridge.h / cartridge.c), mapper 0.
Byte arrays are functions; stores go through `upd`. -/

/-- Pointwise array update. -/
def upd (f : Nat → Nat) (k v : Nat) : Nat → Nat :=
  fun i => if i = k then v else f i

inductive Mirror where
  | horizontal
  | vertical
deriving DecidableEq, Repr

structure Cartridge where
  prg_rom : Nat → Nat
  chr_rom : Nat → Nat
  chr_ram : Nat → Nat
  prg_banks : Nat
  chr_banks : Nat
  mapper_id : Nat
  mirror : Mirror

/-- `cartridge_cpu_read`: NROM PRG mapping ($8000 window; $C000 mirrors
the single bank or maps the second); everything below $8000 reads 0. -/
def cartridge_cpu_read (cart : Cartridge) (addr : Nat) : Nat :=
  if addr ≥ 0x8000 then
    if addr < 0xC000 then cart.prg_rom (addr &&& 0x3FFF) % 256
    else if cart.prg_banks = 1 then cart.prg_rom (addr &&& 0x3FFF) % 256
    else cart.prg_rom (0x4000 + (addr &&& 0x3FFF)) % 256
  else 0

/-- `cartridge_cpu_write`: mapper 0 has no writable registers. -/
def cartridge_cpu_write (cart : Cartridge) (_addr _val : Nat) : Cartridge := cart

/-- `cartridge_chr_read`. -/
def cartridge_chr_read (cart : Cartridge) (addr : Nat) : Nat :=
  if cart.chr_banks > 0 then cart.chr_rom (addr &&& 0x1FFF) % 256
  else cart.chr_ram (addr &&& 0x1FFF) % 256

/-- `cartridge_chr_write`: only effective in CHR-RAM mode. -/
def cartridge_chr_write (cart : Cartridge) (addr val : Nat) : Cartridge :=
  if cart.chr_banks = 0 then
    { cart with chr_ram := upd cart.chr_ram (addr &&& 0x1FFF) (val % 256) }
  else cart

/-! ### PPU state (ppu.h `ppu_t`).
The C struct's back-pointer `nes` is used only to reach the cartridge;
here the cartridge is an explicit parameter of each PPU operation (and
an explicit result where CHR RAM may be written). -/

structure PPU where
  nametable : Nat → Nat
  palette : Nat → Nat
  oam : Nat → Nat
  ctrl : Nat
  mask : Nat
  status : Nat
  oam_addr : Nat
  v : Nat
  t : Nat
  fine_x : Nat
  w : Bool
  data_buf : Nat
  scanline : Int
  cycle : Nat
  frame : Nat
  nmi_occurred : Bool
  nmi_output : Bool
  framebuffer : Nat → Nat

/-- `ppu_bus_read` (ppu.c): pattern tables to CHR, nametables with
mirroring, palette RAM with the $10/$14/$18/$1C aliases. -/
def ppu_bus_read (cart : Cartridge) (ppu : PPU) (addr0 : Nat) : Nat :=
  let addr := addr0 &&& 0x3FFF
  if addr < 0x2000 then cartridge_chr_read cart addr
  else if addr < 0x3F00 then
    let addr := addr &&& 0x2FFF
    let offset := addr - 0x2000
    let table := offset / 0x0400
    let index := offset % 0x0400
    let nt_index :=
      if cart.mirror = Mirror.vertical then (table &&& 1) * 0x0400 + index
      else (table / 2) * 0x0400 + index
    ppu.nametable nt_index % 256
  else
    let idx0 := addr &&& 0x1F
    let idx1 := if idx0 = 0x10 then 0x00 else idx0
    let idx2 := if idx1 = 0x14 then 0x04 else idx1
    let idx3 := if idx2 = 0x18 then 0x08 else idx2
    let idx := if idx3 = 0x1C then 0x0C else idx3
    ppu.palette idx % 256

/-- `ppu_bus_write`: same routing; palette writes keep only 6 bits. -/
def ppu_bus_write (cart : Cartridge) (ppu : PPU) (addr0 val : Nat) : Cartridge × PPU :=
  let addr := addr0 &&& 0x3FFF
  if addr < 0x2000 then (cartridge_chr_write cart addr val, ppu)
  else if addr < 0x3F00 then
    let addr := addr &&& 0x2FFF
    let offset := addr - 0x2000
    let table := offset / 0x0400
    let index := offset % 0x0400
    let nt_index :=
      if cart.mirror = Mirror.vertical then (table &&& 1) * 0x0400 + index
      else (table / 2) * 0x0400 + index
    (cart, { ppu with nametable := upd ppu.nametable nt_index (val % 256) })
  else
    let idx0 := addr &&& 0x1F
    let idx1 := if idx0 = 0x10 then 0x00 else idx0
    let idx2 := if idx1 = 0x14 then 0x04 else idx1
    let idx3 := if idx2 = 0x18 then 0x08 else idx2
    let idx := if idx3 = 0x1C then 0x0C else idx3
    (cart, { ppu with palette := upd ppu.palette idx (val &&& 0x3F) })

/-- `ppu_cpu_write` ($2000-$2007 by the low 3 address bits). -/
def ppu_cpu_write (cart : Cartridge) (ppu : PPU) (addr val : Nat) : Cartridge × PPU :=
  match addr &&& 0x07 with
  | 0 =>
    let prev_nmi := ppu.nmi_output
    let p1 := { ppu with
      ctrl := val,
      nmi_output := (val &&& 0x80) ≠ 0,
      t := (ppu.t &&& 0xF3FF) ||| ((val &&& 0x03) <<< 10) }
    (cart, if !prev_nmi && p1.nmi_output && p1.nmi_occurred
           then { p1 with nmi_occurred := true } else p1)
  | 1 => (cart, { ppu with mask := val })
  | 3 => (cart, { ppu with oam_addr := val })
  | 4 => (cart, { ppu with
      oam := upd ppu.oam ppu.oam_addr (val % 256),
      oam_addr := (ppu.oam_addr + 1) % 256 })
  | 5 =>
    if !ppu.w then
      (cart, { ppu with
        t := (ppu.t &&& 0xFFE0) ||| (val >>> 3),
        fine_x := val &&& 0x07,
        w := true })
    else
      (cart, { ppu with
        t := (ppu.t &&& 0x8C1F) ||| ((val &&& 0x07) <<< 12) ||| ((val &&& 0xF8) <<< 2),
        w := false })
  | 6 =>
    if !ppu.w then
      (cart, { ppu with t := (ppu.t &&& 0x00FF) ||| ((val &&& 0x3F) <<< 8), w := true })
    else
      let t2 := (ppu.t &&& 0xFF00) ||| val
      (cart, { ppu with t := t2, v := t2, w := false })
  | 7 =>
    let r := ppu_bus_write cart ppu ppu.v val
    (r.1, { r.2 with v := (r.2.v + (if r.2.ctrl &&& 0x04 ≠ 0 then 32 else 1)) % 65536 })
  | _ => (cart, ppu)

/-- `ppu_cpu_read`. -/
def ppu_cpu_read (cart : Cartridge) (ppu : PPU) (addr : Nat) : Nat × PPU :=
  match addr &&& 0x07 with
  | 2 =>
    let result0 := ppu.status &&& 0xE0
    let result := if ppu.nmi_occurred then result0 ||| 0x80 else result0
    (result, { ppu with nmi_occurred := false, w := false })
  | 4 => (ppu.oam ppu.oam_addr % 256, ppu)
  | 7 =>
    let dp :=
      if ppu.v < 0x3F00 then
        (ppu.data_buf, { ppu with data_buf := ppu_bus_read cart ppu ppu.v })
      else
        (ppu_bus_read cart ppu ppu.v,
         { ppu with data_buf := ppu_bus_read cart ppu (ppu.v - 0x1000) })
    (dp.1, { dp.2 with v := (dp.2.v + (if dp.2.ctrl &&& 0x04 ≠ 0 then 32 else 1)) % 65536 })
  | _ => (0, ppu)

/-- The fixed 64-entry master palette (ppu.c `nes_palette`). -/
def nes_palette_list : List Nat :=
  [0xFF666666, 0xFF002A88, 0xFF1412A7, 0xFF3B00A4,
   0xFF5C007E, 0xFF6E0040, 0xFF6C0600, 0xFF561D00,
   0xFF333500, 0xFF0B4800, 0xFF005200, 0xFF004F08,
   0xFF00404D, 0xFF000000, 0xFF000000, 0xFF000000,
   0xFFADADAD, 0xFF155FD9, 0xFF4240FF, 0xFF7527FE,
   0xFFA01ACC, 0xFFB71E7B, 0xFFB53120, 0xFF994E00,
   0xFF6B6D00, 0xFF388700, 0xFF0C9300, 0xFF008F32,
   0xFF007C8D, 0xFF000000, 0xFF000000, 0xFF000000,
   0xFFFFFFFF, 0xFF64B0FF, 0xFF9290FF, 0xFFC676FF,
   0xFFF36AFF, 0xFFFE6ECC, 0xFFFE8170, 0xFFEA9E22,
   0xFFBCBE00, 0xFF88D800, 0xFF5CE430, 0xFF45E082,
   0xFF48CDDE, 0xFF4F4F4F, 0xFF000000, 0xFF000000,
   0xFFFFFFFF, 0xFFC0DFFF, 0xFFD3D2FF, 0xFFE8C8FF,
   0xFFFBC2FF, 0xFFFEC4EA, 0xFFFECCC5, 0xFFF7D8A5,
   0xFFE4E594, 0xFFCFEF96, 0xFFBDF4AB, 0xFFB3F3CC,
   0xFFB5EBF2, 0xFFB8B8B8, 0xFF000000, 0xFF000000]

/-- Per-pixel sprite buffers of `render_scanline`.  The C code leaves
`spr_color`/`spr_priority` uninitialised and only reads them where
`spr_opaque` was set; here they start at 0, which is unobservable. -/
structure SprBufs where
  color : Nat → Nat
  prio : Nat → Nat
  opq : Nat → Nat
  zero : Nat → Nat

/-- `render_scanline` (ppu.c): render one full 256-pixel row
(background tiles, up to 8 sprites, composition with sprite-0 hit),
then do the end-of-line `v` updates. -/
def render_scanline (cart : Cartridge) (ppu : PPU) : PPU :=
  let y := ppu.scanline
  let bg :=
    if ppu.mask &&& 0x08 ≠ 0 then
      let r := (List.range 33).foldl (fun (acc : Nat × ((Nat → Nat) × (Nat → Nat))) tile =>
        let v := acc.1
        let tile_id := ppu_bus_read cart ppu (0x2000 ||| (v &&& 0x0FFF))
        let attr_addr := 0x23C0 ||| (v &&& 0x0C00) ||| ((v >>> 4) &&& 0x38) ||| ((v >>> 2) &&& 0x07)
        let attr_byte := ppu_bus_read cart ppu attr_addr
        let shift := ((v >>> 4) &&& 0x04) ||| (v &&& 0x02)
        let pal := (attr_byte >>> shift) &&& 0x03
        let pattern_base := if ppu.ctrl &&& 0x10 ≠ 0 then 0x1000 else 0x0000
        let fine_y := (v >>> 12) &&& 0x07
        let plane0 := ppu_bus_read cart ppu (pattern_base + tile_id * 16 + fine_y)
        let plane1 := ppu_bus_read cart ppu (pattern_base + tile_id * 16 + fine_y + 8)
        let bufs := (List.range 8).foldl (fun (pp : (Nat → Nat) × (Nat → Nat)) px =>
          let screen_x : Int := (tile * 8 + px : Nat) - (ppu.fine_x : Int)
          if screen_x < 0 ∨ screen_x ≥ 256 then pp
          else
            let bit := 7 - px
            let pixel := (((plane1 >>> bit) &&& 1) <<< 1) ||| ((plane0 >>> bit) &&& 1)
            (upd pp.1 screen_x.toNat pixel, upd pp.2 screen_x.toNat pal)) acc.2
        let v2 :=
          if v &&& 0x001F = 31 then (v &&& 0xFFE0) ^^^ 0x0400
          else (v + 1) % 65536
        (v2, bufs)) (ppu.v, (fun _ => 0, fun _ => 0))
      r.2
    else (fun _ => 0, fun _ => 0)
  let sprite_height := if ppu.ctrl &&& 0x20 ≠ 0 then 16 else 8
  let spr :=
    if ppu.mask &&& 0x10 ≠ 0 then
      let sel := (List.range 64).foldl (fun (idxs : List Nat) i =>
        if idxs.length < 8 then
          let sy := ppu.oam (i * 4) % 256
          let row : Int := y - ((sy : Int) + 1)
          if 0 ≤ row ∧ row < sprite_height then idxs ++ [i] else idxs
        else idxs) []
      sel.reverse.foldl (fun (ar : SprBufs) i =>
        let sy := ppu.oam (i * 4) % 256
        let tile := ppu.oam (i * 4 + 1) % 256
        let attr := ppu.oam (i * 4 + 2) % 256
        let sx := ppu.oam (i * 4 + 3) % 256
        let row0 : Int := y - ((sy : Int) + 1)
        let row1 := if attr &&& 0x80 ≠ 0 then sprite_height - 1 - row0 else row0
        let pattern_addr :=
          if sprite_height = 8 then
            (if ppu.ctrl &&& 0x08 ≠ 0 then 0x1000 else 0x0000) + tile * 16 + row1.toNat
          else
            let table := if tile &&& 1 ≠ 0 then 0x1000 else 0x0000
            let tile_num := tile &&& 0xFE
            let tr := if row1 ≥ 8 then (tile_num + 1, row1.toNat - 8) else (tile_num, row1.toNat)
            table + tr.1 * 16 + tr.2
        let plane0 := ppu_bus_read cart ppu pattern_addr
        let plane1 := ppu_bus_read cart ppu (pattern_addr + 8)
        (List.range 8).foldl (fun (ar : SprBufs) px =>
          let bit := if attr &&& 0x40 ≠ 0 then px else 7 - px
          let pixel := (((plane1 >>> bit) &&& 1) <<< 1) ||| ((plane0 >>> bit) &&& 1)
          if pixel = 0 then ar
          else
            let screen_x := sx + px
            if screen_x ≥ 256 then ar
            else
              let spr_pal := attr &&& 0x03
              let pal_addr0 := 0x10 + spr_pal * 4 + pixel
              let pal_addr := if pal_addr0 = 0x10 then 0x00 else pal_addr0
              { color := upd ar.color screen_x (ppu.palette pal_addr % 256),
                prio := upd ar.prio screen_x ((attr >>> 5) &&& 1),
                opq := upd ar.opq screen_x 1,
                zero := if i = 0 then upd ar.zero screen_x 1 else ar.zero }) ar)
        ⟨fun _ => 0, fun _ => 0, fun _ => 0, fun _ => 0⟩
    else (⟨fun _ => 0, fun _ => 0, fun _ => 0, fun _ => 0⟩ : SprBufs)
  let comp := (List.range 256).foldl (fun (acc : Nat × (Nat → Nat)) x =>
    let show_bg := bg.1 x ≠ 0 ∧ ppu.mask &&& 0x08 ≠ 0 ∧ (x ≥ 8 ∨ ppu.mask &&& 0x02 ≠ 0)
    let show_spr := spr.opq x ≠ 0 ∧ ppu.mask &&& 0x10 ≠ 0 ∧ (x ≥ 8 ∨ ppu.mask &&& 0x04 ≠ 0)
    let st := if show_bg ∧ show_spr ∧ spr.zero x ≠ 0 ∧ x ≠ 255 then acc.1 ||| 0x40 else acc.1
    let color :=
      if ¬show_bg ∧ ¬show_spr then ppu.palette 0 % 256
      else if show_spr ∧ ¬show_bg then spr.color x
      else if ¬show_spr ∧ show_bg then ppu.palette (bg.2 x * 4 + bg.1 x) % 256
      else if spr.prio x = 0 then spr.color x
      else ppu.palette (bg.2 x * 4 + bg.1 x) % 256
    (st, upd acc.2 (y.toNat * 256 + x) (nes_palette_list.getD (color &&& 0x3F) 0)))
    (ppu.status, ppu.framebuffer)
  let v1 :=
    if ppu.v &&& 0x7000 ≠ 0x7000 then (ppu.v + 0x1000) % 65536
    else
      let v0 := ppu.v &&& 0x8FFF
      let cy := (v0 &&& 0x03E0) >>> 5
      let cv :=
        if cy = 29 then (0, v0 ^^^ 0x0800)
        else if cy = 31 then (0, v0)
        else (cy + 1, v0)
      (cv.2 &&& 0xFC1F) ||| (cv.1 <<< 5)
  let v2 := (v1 &&& 0xFBE0) ||| (ppu.t &&& 0x041F)
  { ppu with status := comp.1, framebuffer := comp.2, v := v2 }

/-- `ppu_step` (ppu.c): one PPU tick; returns the "fire NMI" signal and
the advanced PPU. -/
def ppu_step (cart : Cartridge) (ppu : PPU) : Bool × PPU :=
  let rendering_enabled := ppu.mask &&& 0x18 ≠ 0
  let fp :=
    if ppu.scanline = -1 then
      let p :=
        if ppu.cycle = 1 then
          { ppu with nmi_occurred := false, status := ppu.status &&& 0x1F }
        else ppu
      let p :=
        if rendering_enabled ∧ p.cycle ≥ 280 ∧ p.cycle ≤ 304 then
          { p with v := (p.v &&& 0x841F) ||| (p.t &&& 0x7BE0) }
        else p
      (false, p)
    else if 0 ≤ ppu.scanline ∧ ppu.scanline < 240 then
      (false, if ppu.cycle = 0 ∧ rendering_enabled then render_scanline cart ppu else ppu)
    else if ppu.scanline = 241 ∧ ppu.cycle = 1 then
      let p := { ppu with nmi_occurred := true, status := ppu.status ||| 0x80 }
      (p.nmi_output, p)
    else (false, ppu)
  let p2 : PPU := { fp.2 with cycle := fp.2.cycle + 1 }
  let p3 : PPU :=
    if p2.cycle > 340 then
      let q : PPU := { p2 with cycle := 0, scanline := p2.scanline + 1 }
      if q.scanline > 260 then { q with scanline := -1, frame := (q.frame + 1) % M64 }
      else q
    else p2
  (fp.1, p3)

/-! ### NES system (nes.h `nes_t`, nes main.c).
The `nes_t` fields other than the CPU; the CPU is the `Sys` component,
so the full system state is `Sys NesEnv`. -/

structure NesEnv where
  ppu : PPU
  cart : Cartridge
  ram : Nat → Nat
  controller : Nat × Nat
  controller_shift : Nat × Nat
  controller_strobe : Bool
  dma_pending : Bool
  dma_page : Nat

/-- `nes_bus_read`: RAM mirrors, PPU registers, controller serial reads
(return bit 0 of the shift register, then shift right), APU stub,
cartridge space. -/
def nes_bus_read (nes : NesEnv) (addr0 : Nat) : Nat × NesEnv :=
  let addr := addr0 % 65536
  if addr < 0x2000 then (nes.ram (addr &&& 0x07FF) % 256, nes)
  else if addr < 0x4000 then
    let r := ppu_cpu_read nes.cart nes.ppu (addr &&& 0x0007)
    (r.1, { nes with ppu := r.2 })
  else if addr = 0x4016 then
    (nes.controller_shift.1 &&& 0x01,
     { nes with controller_shift := (nes.controller_shift.1 >>> 1, nes.controller_shift.2) })
  else if addr = 0x4017 then
    (nes.controller_shift.2 &&& 0x01,
     { nes with controller_shift := (nes.controller_shift.1, nes.controller_shift.2 >>> 1) })
  else if addr < 0x4020 then (0, nes)
  else (cartridge_cpu_read nes.cart addr, nes)

/-- `nes_bus_write`: RAM, PPU registers, OAM-DMA latch ($4014),
controller strobe ($4016), APU stub, cartridge space. -/
def nes_bus_write (nes : NesEnv) (addr0 val0 : Nat) : NesEnv :=
  let addr := addr0 % 65536
  let val := val0 % 256
  if addr < 0x2000 then { nes with ram := upd nes.ram (addr &&& 0x07FF) val }
  else if addr < 0x4000 then
    let r := ppu_cpu_write nes.cart nes.ppu (addr &&& 0x0007) val
    { nes with cart := r.1, ppu := r.2 }
  else if addr = 0x4014 then { nes with dma_pending := true, dma_page := val }
  else if addr = 0x4016 then
    if val &&& 0x01 ≠ 0 then { nes with controller_strobe := true }
    else if nes.controller_strobe then
      { nes with
        controller_shift := (nes.controller.1, nes.controller.2),
        controller_strobe := false }
    else nes
  else if addr < 0x4020 then nes
  else { nes with cart := cartridge_cpu_write nes.cart addr val }

/-- The NES bus as the CPU's installed bus functions. -/
def nesBus : BusOps NesEnv :=
  ⟨fun env addr => nes_bus_read env addr, fun env addr val => nes_bus_write env addr val⟩

/-- One PPU tick inside the frame loop: `if (ppu_step(..)) cpu6502_nmi(..)`. -/
def ppu_tick (s : Sys NesEnv) : Sys NesEnv :=
  let r := ppu_step s.env.cart s.env.ppu
  let s1 : Sys NesEnv := ⟨s.cpu, { s.env with ppu := r.2 }⟩
  if r.1 then cpu6502_nmi nesBus s1 else s1

/-- Run `n` PPU ticks. -/
def run_ppu (n : Nat) (s : Sys NesEnv) : Sys NesEnv :=
  (List.range n).foldl (fun s _ => ppu_tick s) s

/-- The 256-byte OAM DMA copy from page `dma_page`, performed against
the live CPU bus. -/
def dma_copy (s : Sys NesEnv) : Sys NesEnv :=
  (List.range 256).foldl (fun (s : Sys NesEnv) i =>
    let r := nes_bus_read s.env ((s.env.dma_page <<< 8) ||| i)
    ⟨s.cpu, { r.2 with ppu := { r.2.ppu with oam := upd r.2.ppu.oam i (r.1 % 256) } }⟩) s

/-- One iteration of the `while (nes->ppu.frame == start_frame)` loop
body of `nes_step_frame`: either the pending OAM DMA (copy, 1542 PPU
ticks, +514 CPU cycles) or one CPU instruction followed by
`3 × elapsed` PPU ticks.  `elapsed` is a uint64 difference. -/
def nes_frame_body (s : Sys NesEnv) : Sys NesEnv :=
  if s.env.dma_pending then
    let s1 := dma_copy s
    let s2 : Sys NesEnv := ⟨s1.cpu, { s1.env with dma_pending := false }⟩
    let s3 := run_ppu 1542 s2
    ⟨addCycles s3.cpu 514, s3.env⟩
  else
    let prev := s.cpu.cycles
    let s1 := cpu6502_step nesBus s
    let elapsed := (s1.cpu.cycles + M64 - prev) % M64
    run_ppu ((elapsed * 3) % M64) s1

/-! ### Concrete states used by witnesses and counterexamples. -/

def zfn : Nat → Nat := fun _ => 0

def cart0 : Cartridge :=
  { prg_rom := zfn, chr_rom := zfn, chr_ram := zfn,
    prg_banks := 1, chr_banks := 1, mapper_id := 0, mirror := Mirror.horizontal }

def ppu0 : PPU :=
  { nametable := zfn, palette := zfn, oam := zfn,
    ctrl := 0, mask := 0, status := 0, oam_addr := 0,
    v := 0, t := 0, fine_x := 0, w := false, data_buf := 0,
    scanline := 0, cycle := 0, frame := 0,
    nmi_occurred := false, nmi_output := false, framebuffer := zfn }

def env0 : NesEnv :=
  { ppu := ppu0, cart := cart0, ram := zfn,
    controller := (0, 0), controller_shift := (0, 0), controller_strobe := false,
    dma_pending := false, dma_page := 0 }

/-! ### Claim theorems -/

/-- C5: a CPU read of $2007 with `v < 0x3F00` returns the data buffer
and refills it from `ppu_bus_read(v)`; with `v ≥ 0x3F00` it returns
`ppu_bus_read(v)` directly and refills the buffer from
`ppu_bus_read(v - 0x1000)`; in both cases `v` is then incremented
(uint16) by 32 if PPUCTRL bit 2 is set, else by 1. -/
theorem c5_ppudata_read_buffer (env : NesEnv) :
    (nes_bus_read env 0x2007).1 =
      (if env.ppu.v < 0x3F00 then env.ppu.data_buf
       else ppu_bus_read env.cart env.ppu env.ppu.v) ∧
    (nes_bus_read env 0x2007).2 =
      { env with ppu := { env.ppu with
          data_buf :=
            (if env.ppu.v < 0x3F00 then ppu_bus_read env.cart env.ppu env.ppu.v
             else ppu_bus_read env.cart env.ppu (env.ppu.v - 0x1000)),
          v := (env.ppu.v + (if env.ppu.ctrl &&& 0x04 ≠ 0 then 32 else 1)) % 65536 } } := by
  unfold nes_bus_read ppu_cpu_read
  norm_num
  by_cases h : env.ppu.v < 0x3F00 <;> simp [h]

/-- C7 counterexample: the claim says the read-back at $3F10 equals the
byte written at $3F00 for EVERY byte; with b = 0xFF the palette write
masks to 6 bits and the read-back is 0x3F ≠ 0xFF. -/
theorem c7_palette_roundtrip_counterexample :
    (ppu_bus_read (ppu_bus_write cart0 ppu0 0x3F00 0xFF).1
      (ppu_bus_write cart0 ppu0 0x3F00 0xFF).2 0x3F10) = 0x3F ∧
    (0x3F : Nat) ≠ 0xFF := by
  constructor
  · rfl
  · decide

/-- C7 amended: for every byte `b`, writing `b` at one member of each
aliased pair $3F00/$3F10, $3F04/$3F14, $3F08/$3F18, $3F0C/$3F1C and
reading the other member returns `b & 0x3F` (the palette keeps only the
low 6 bits of a write). -/
theorem c7_palette_roundtrip_amended (cart : Cartridge) (ppu : PPU) (b : Nat) :
    (∀ p ∈ [(0x3F00, 0x3F10), (0x3F10, 0x3F00),
            (0x3F04, 0x3F14), (0x3F14, 0x3F04),
            (0x3F08, 0x3F18), (0x3F18, 0x3F08),
            (0x3F0C, 0x3F1C), (0x3F1C, 0x3F0C)],
      ppu_bus_read (ppu_bus_write cart ppu p.1 b).1
        (ppu_bus_write cart ppu p.1 b).2 p.2 = b &&& 0x3F) := by
  have hb : b &&& 0x3F < 256 :=
    lt_of_le_of_lt Nat.and_le_right (by norm_num)
  intro p hp
  fin_cases hp <;>
    simp [ppu_bus_write, ppu_bus_read, upd, Nat.mod_eq_of_lt hb,
      (by decide : (0x3F00 : Nat) &&& 0x3FFF = 0x3F00),
      (by decide : (0x3F04 : Nat) &&& 0x3FFF = 0x3F04),
      (by decide : (0x3F08 : Nat) &&& 0x3FFF = 0x3F08),
      (by decide : (0x3F0C : Nat) &&& 0x3FFF = 0x3F0C),
      (by decide : (0x3F10 : Nat) &&& 0x3FFF = 0x3F10),
      (by decide : (0x3F14 : Nat) &&& 0x3FFF = 0x3F14),
      (by decide : (0x3F18 : Nat) &&& 0x3FFF = 0x3F18),
      (by decide : (0x3F1C : Nat) &&& 0x3FFF = 0x3F1C),
      (by decide : (0x3F00 : Nat) &&& 0x1F = 0x00),
      (by decide : (0x3F04 : Nat) &&& 0x1F = 0x04),
      (by decide : (0x3F08 : Nat) &&& 0x1F = 0x08),
      (by decide : (0x3F0C : Nat) &&& 0x1F = 0x0C),
      (by decide : (0x3F10 : Nat) &&& 0x1F = 0x10),
      (by decide : (0x3F14 : Nat) &&& 0x1F = 0x14),
      (by decide : (0x3F18 : Nat) &&& 0x1F = 0x18),
      (by decide : (0x3F1C : Nat) &&& 0x1F = 0x1C)]

/-- Closed witness for C7's amended statement: pair $3F00/$3F10 with
b = 0xAB reads back 0xAB & 0x3F = 0x2B. -/
theorem c7_palette_roundtrip_amended_witness :
    ((0x3F00, 0x3F10) : Nat × Nat) ∈
      [((0x3F00 : Nat), (0x3F10 : Nat)), (0x3F10, 0x3F00),
       (0x3F04, 0x3F14), (0x3F14, 0x3F04),
       (0x3F08, 0x3F18), (0x3F18, 0x3F08),
       (0x3F0C, 0x3F1C), (0x3F1C, 0x3F0C)] ∧
    ppu_bus_read (ppu_bus_write cart0 ppu0 0x3F00 0xAB).1
      (ppu_bus_write cart0 ppu0 0x3F00 0xAB).2 0x3F10 = 0xAB &&& 0x3F :=
  ⟨by decide, c7_palette_roundtrip_amended cart0 ppu0 0xAB (0x3F00, 0x3F10) (by decide)⟩

/-- C6: from scanline 240, cycle 340 with `nmi_output = 1`, the next
three PPU ticks return the fire-NMI signal exactly for the third one
(the tick executed at scanline 241, cycle 1), which also sets
`nmi_occurred` and bit 7 of the status latch. -/
theorem c6_vblank_nmi_once (cart : Cartridge) (ppu : PPU)
    (hs : ppu.scanline = 240) (hc : ppu.cycle = 340) (ho : ppu.nmi_output = true) :
    (ppu_step cart ppu).1 = false ∧
    (ppu_step cart ppu).2.scanline = 241 ∧ (ppu_step cart ppu).2.cycle = 0 ∧
    (ppu_step cart (ppu_step cart ppu).2).1 = false ∧
    (ppu_step cart (ppu_step cart ppu).2).2.scanline = 241 ∧
    (ppu_step cart (ppu_step cart ppu).2).2.cycle = 1 ∧
    (ppu_step cart (ppu_step cart (ppu_step cart ppu).2).2).1 = true ∧
    (ppu_step cart (ppu_step cart (ppu_step cart ppu).2).2).2.scanline = 241 ∧
    (ppu_step cart (ppu_step cart (ppu_step cart ppu).2).2).2.cycle = 2 ∧
    (ppu_step cart (ppu_step cart (ppu_step cart ppu).2).2).2.nmi_occurred = true ∧
    (ppu_step cart (ppu_step cart (ppu_step cart ppu).2).2).2.status.testBit 7 = true := by
  simp [ppu_step, hs, hc, ho, Nat.testBit_or,
    (by decide : Nat.testBit 128 7 = true)]

/-- Closed witness for C6 at a concrete PPU state. -/
theorem c6_vblank_nmi_once_witness :
    (ppu_step cart0 (ppu_step cart0 (ppu_step cart0
      { ppu0 with scanline := 240, cycle := 340, nmi_output := true }).2).2).1 = true :=
  (c6_vblank_nmi_once cart0
    { ppu0 with scanline := 240, cycle := 340, nmi_output := true }
    rfl rfl rfl).2.2.2.2.2.2.1

/-- C8 counterexample: with `nmi_output = 0` and `nmi_occurred = 1` in
mid-VBlank (scanline 250), a CPU write of 0x80 to $2000 only updates
PPU register state (ctrl, nmi_output, t, and nmi_occurred stays set) —
it produces no NMI signal: the system write path returns nothing, and
the following PPU tick does not fire an NMI either. -/
theorem c8_ctrl_nmi_counterexample :
    (nes_bus_write
        { env0 with ppu := { ppu0 with nmi_occurred := true, scanline := 250, cycle := 7 } }
        0x2000 0x80) =
      { env0 with ppu := { ppu0 with
          nmi_occurred := true, scanline := 250, cycle := 7,
          ctrl := 0x80, nmi_output := true, t := 0 } } ∧
    (ppu_step
      (nes_bus_write
        { env0 with ppu := { ppu0 with nmi_occurred := true, scanline := 250, cycle := 7 } }
        0x2000 0x80).cart
      (nes_bus_write
        { env0 with ppu := { ppu0 with nmi_occurred := true, scanline := 250, cycle := 7 } }
        0x2000 0x80).ppu).1 = false := by
  constructor
  · rfl
  · rfl

/-- C8 amended: a CPU write of `val` to $2000 stores the byte in ctrl,
sets `nmi_output` from bit 7, and copies the low two bits into bits
10-11 of `t`; when `nmi_output` goes 0→1 while `nmi_occurred` is set it
does NOT deliver an NMI to the CPU — `nmi_occurred` merely remains set
(the whole effect of the write is this register update). -/
theorem c8_ctrl_write_amended (env : NesEnv) (val : Nat) :
    nes_bus_write env 0x2000 val =
      { env with ppu := { env.ppu with
          ctrl := val % 256,
          nmi_output := ((val % 256) &&& 0x80) ≠ 0,
          t := (env.ppu.t &&& 0xF3FF) ||| (((val % 256) &&& 0x03) <<< 10) } } := by
  by_cases h : env.ppu.nmi_occurred <;>
    by_cases h2 : env.ppu.nmi_output <;>
      by_cases h3 : ((val % 256) &&& 0x80) ≠ 0 <;>
        simp [nes_bus_write, ppu_cpu_write, h, h2, h3]

/-- C9 counterexample: with live controller byte 1 and an empty shift
register, a $4016 write with bit 0 = 1 only raises the strobe flag; a
read while the strobe is high returns bit 0 of the (stale) shift
register, 0, not bit 0 of the live controller state, 1.  There is no
continuous latching. -/
theorem c9_strobe_counterexample :
    (nes_bus_write { env0 with controller := (1, 0) } 0x4016 1) =
      { env0 with controller := (1, 0), controller_strobe := true } ∧
    (nes_bus_read
      (nes_bus_write { env0 with controller := (1, 0) } 0x4016 1) 0x4016).1 = 0 ∧
    ({ env0 with controller := (1, 0) } : NesEnv).controller.1 &&& 0x01 = 1 := by
  refine ⟨rfl, rfl, by decide⟩

/-- C9 amended: a $4016 write with bit 0 = 1 sets the strobe flag and
changes nothing else (in particular the shift registers are not
reloaded while the strobe is high); a write with bit 0 = 0 latches
`controller[0..1]` into the shift registers exactly when the strobe was
high (the 1→0 edge), and is a no-op otherwise. -/
theorem c9_strobe_amended (env : NesEnv) (val : Nat) :
    ((val % 256) &&& 0x01 ≠ 0 →
      nes_bus_write env 0x4016 val = { env with controller_strobe := true }) ∧
    ((val % 256) &&& 0x01 = 0 → env.controller_strobe = true →
      nes_bus_write env 0x4016 val =
        { env with
            controller_shift := (env.controller.1, env.controller.2),
            controller_strobe := false }) ∧
    ((val % 256) &&& 0x01 = 0 → env.controller_strobe = false →
      nes_bus_write env 0x4016 val = env) := by
  refine ⟨fun h1 => ?_, fun h1 h2 => ?_, fun h1 h2 => ?_⟩
  · rw [Nat.and_one_is_mod] at h1
    simp [nes_bus_write, h1]
  · rw [Nat.and_one_is_mod] at h1
    simp [nes_bus_write, h1, h2]
  · rw [Nat.and_one_is_mod] at h1
    simp [nes_bus_write, h1, h2]

/-- Closed witness for C9's amended statement (bit-0 = 1 write at a
concrete state). -/
theorem c9_strobe_amended_witness :
    ((1 : Nat) % 256) &&& 0x01 ≠ 0 ∧
    nes_bus_write { env0 with controller := (1, 0) } 0x4016 1 =
      { env0 with controller := (1, 0), controller_strobe := true } :=
  ⟨by decide, (c9_strobe_amended { env0 with controller := (1, 0) } 1).1 (by decide)⟩

/-- One controller-1 serial read, keeping only the state change
(`nes_bus_read` at $4016 shifts the port-0 register right). -/
def read4016_step (e : NesEnv) : NesEnv := (nes_bus_read e 0x4016).2

theorem read4016_step_shift (e : NesEnv) :
    (read4016_step e).controller_shift.1 = e.controller_shift.1 / 2 := by
  simp only [read4016_step, nes_bus_read]
  norm_num [Nat.shiftRight_succ]

theorem read4016_value (e : NesEnv) :
    (nes_bus_read e 0x4016).1 = e.controller_shift.1 % 2 := by
  simp only [nes_bus_read]
  norm_num

/-- After `k` serial reads of $4016, the port-0 shift register holds
the original value shifted right `k` times (the register refills with
zeros, as `uint8 >>= 1` does). -/
theorem shift_reads_aux (e : NesEnv) (k : Nat) :
    ((read4016_step)^[k] e).controller_shift.1 = e.controller_shift.1 / 2 ^ k := by
  induction k with
  | zero => simp
  | succ n ih =>
    rw [Function.iterate_succ_apply', read4016_step_shift, ih,
      Nat.div_div_eq_div_mul, Nat.pow_succ]

/-- C10: after a 1→0 strobe edge on $4016 latches controller byte `c`
(with `c < 256` as a uint8), the (k+1)-st CPU read of $4016 returns bit
`k` of `c` (`c / 2^k % 2`); from the ninth read on (`k ≥ 8`) every read
returns 0, because the shift register refills with zeros. -/
theorem c10_controller_serial_reads (env : NesEnv) (hc : env.controller.1 < 256) (k : Nat) :
    (nes_bus_read
      ((read4016_step)^[k]
        (nes_bus_write (nes_bus_write env 0x4016 1) 0x4016 0)) 0x4016).1 =
      env.controller.1 / 2 ^ k % 2 ∧
    (8 ≤ k →
      (nes_bus_read
        ((read4016_step)^[k]
          (nes_bus_write (nes_bus_write env 0x4016 1) 0x4016 0)) 0x4016).1 = 0) := by
  have he2 : nes_bus_write (nes_bus_write env 0x4016 1) 0x4016 0 =
      { env with
          controller_shift := (env.controller.1, env.controller.2),
          controller_strobe := false } := by
    simp [nes_bus_write]
  rw [he2, read4016_value, shift_reads_aux]
  constructor
  · rfl
  · intro hk
    have hz : env.controller.1 / 2 ^ k = 0 := by
      apply Nat.div_eq_of_lt
      calc env.controller.1 < 256 := hc
        _ = 2 ^ 8 := by norm_num
        _ ≤ 2 ^ k := Nat.pow_le_pow_right (by norm_num) hk
    simp [hz]

/-- Closed witness for C10 at controller byte 0xA5, read index 2
(bit 2 of 0xA5 is 1). -/
theorem c10_controller_serial_reads_witness :
    ({ env0 with controller := (0xA5, 0) } : NesEnv).controller.1 < 256 ∧
    (nes_bus_read
      ((read4016_step)^[2]
        (nes_bus_write (nes_bus_write { env0 with controller := (0xA5, 0) } 0x4016 1)
          0x4016 0)) 0x4016).1 =
      ({ env0 with controller := (0xA5, 0) } : NesEnv).controller.1 / 2 ^ 2 % 2 :=
  ⟨by decide, (c10_controller_serial_reads { env0 with controller := (0xA5, 0) } (by decide) 2).1⟩

/-- C3 (the code's behavior at the claimed situation): with the CPU
halted and no DMA pending, one iteration of the `nes_step_frame` loop
body is the identity — `cpu6502_step` returns immediately, `elapsed`
is 0, no PPU tick runs — so the PPU frame counter never advances and
the `while (nes->ppu.frame == start_frame)` loop never exits.  The
claim (and spec §7) says the frame loop observes the halt and returns;
the code has no such check. -/
theorem c3_halted_frame_loop (s : Sys NesEnv)
    (h1 : s.cpu.halted = true) (h2 : s.env.dma_pending = false) :
    (∀ n : Nat, (nes_frame_body^[n]) s = s) ∧
    (∀ n : Nat, ((nes_frame_body^[n]) s).env.ppu.frame = s.env.ppu.frame) := by
  have hstep : cpu6502_step nesBus s = s := by
    simp [cpu6502_step, h1]
  have hbody : nes_frame_body s = s := by
    rw [nes_frame_body]
    rw [if_neg (by simp [h2])]
    rw [hstep]
    have he : (s.cpu.cycles + M64 - s.cpu.cycles) % M64 = 0 := by
      have h3 : s.cpu.cycles + M64 - s.cpu.cycles = M64 := by omega
      rw [h3, Nat.mod_self]
    simp [run_ppu, he]
  have hiter : ∀ n : Nat, (nes_frame_body^[n]) s = s := by
    intro n
    induction n with
    | zero => simp
    | succ m ih => rw [Function.iterate_succ_apply', ih, hbody]
  exact ⟨hiter, fun n => by rw [hiter n]⟩

/-! ### C1: decimal-mode ADC/SBC.
Spec-side descriptions, written from the claim's wording ("per-nibble
BCD adjustment", "binary sum", "the value computed before the
high-nibble fixup", "all flags from the binary result") in plain
mod/div arithmetic, to be compared with the source functions. -/

/-- Low-nibble BCD sum of ADC, after its +6 fixup. -/
def adc_bcd_low (a m c : Nat) : Nat :=
  let al := a % 16 + m % 16 + c
  if al > 9 then al + 6 else al

/-- High-nibble sum of ADC before its BCD fixup. -/
def adc_bcd_high0 (a m c : Nat) : Nat :=
  a / 16 + m / 16 + (if adc_bcd_low a m c > 15 then 1 else 0)

/-- The byte value assembled before the high-nibble BCD fixup, from
which decimal ADC takes N and V. -/
def adc_prefix_value (a m c : Nat) : Nat :=
  (adc_bcd_high0 a m c * 16 + adc_bcd_low a m c % 16) % 256

/-- The per-nibble BCD-adjusted accumulator of decimal ADC. -/
def adc_bcd_a (a m c : Nat) : Nat :=
  let ah0 := adc_bcd_high0 a m c
  let ah := if ah0 > 9 then ah0 + 6 else ah0
  ah % 16 * 16 + adc_bcd_low a m c % 16

/-- The binary result of SBC (before any BCD adjustment). -/
def sbc_bin (a m borrow : Nat) : Int := (a : Int) - m - borrow

/-- Low-nibble BCD difference of SBC, after its fixup. -/
def sbc_bcd_low (a m borrow : Nat) : Int :=
  let al : Int := ((a % 16 : Nat) : Int) - ((m % 16 : Nat) : Int) - borrow
  if al < 0 then ((al - 6) % 16) - 16 else al

/-- The per-nibble BCD-adjusted accumulator of decimal SBC. -/
def sbc_bcd_a (a m borrow : Nat) : Nat :=
  let al := sbc_bcd_low a m borrow
  let ah0 : Int := ((a / 16 : Nat) : Int) - ((m / 16 : Nat) : Int) +
    (if al < 0 then -1 else 0)
  let ah := if ah0 < 0 then ah0 - 6 else ah0
  ((ah % 16) * 16 + (al % 16)).toNat

set_option maxRecDepth 10000 in
/-- Flag extraction through the decimal-ADC `set_flag` chain
(Z, N, V, C in the order the source sets them). -/
theorem chain_znvc : ∀ s < 256, ∀ (bz bn bv bc : Bool),
    (get_flag (set_flag (set_flag (set_flag (set_flag s FLAG_Z bz) FLAG_N bn) FLAG_V bv) FLAG_C bc) FLAG_Z = bz ∧
     get_flag (set_flag (set_flag (set_flag (set_flag s FLAG_Z bz) FLAG_N bn) FLAG_V bv) FLAG_C bc) FLAG_N = bn ∧
     get_flag (set_flag (set_flag (set_flag (set_flag s FLAG_Z bz) FLAG_N bn) FLAG_V bv) FLAG_C bc) FLAG_V = bv ∧
     get_flag (set_flag (set_flag (set_flag (set_flag s FLAG_Z bz) FLAG_N bn) FLAG_V bv) FLAG_C bc) FLAG_C = bc) := by
  decide

set_option maxRecDepth 10000 in
/-- Flag extraction through the decimal-SBC `set_flag` chain
(C, Z, N, V in the order the source sets them). -/
theorem chain_cznv : ∀ s < 256, ∀ (bc bz bn bv : Bool),
    (get_flag (set_flag (set_flag (set_flag (set_flag s FLAG_C bc) FLAG_Z bz) FLAG_N bn) FLAG_V bv) FLAG_C = bc ∧
     get_flag (set_flag (set_flag (set_flag (set_flag s FLAG_C bc) FLAG_Z bz) FLAG_N bn) FLAG_V bv) FLAG_Z = bz ∧
     get_flag (set_flag (set_flag (set_flag (set_flag s FLAG_C bc) FLAG_Z bz) FLAG_N bn) FLAG_V bv) FLAG_N = bn ∧
     get_flag (set_flag (set_flag (set_flag (set_flag s FLAG_C bc) FLAG_Z bz) FLAG_N bn) FLAG_V bv) FLAG_V = bv) := by
  decide

set_option maxHeartbeats 1000000 in
theorem adc_decimal_spec (cpu : CPU) (m : Nat)
    (ha : cpu.a < 256) (hm : m < 256) (hst : cpu.status < 256)
    (hD : get_flag cpu.status FLAG_D = true) :
    (get_flag (do_adc cpu m).status FLAG_Z =
      decide ((cpu.a + m + (if get_flag cpu.status FLAG_C then 1 else 0)) % 256 = 0)) ∧
    (get_flag (do_adc cpu m).status FLAG_N =
      decide (128 ≤ adc_prefix_value cpu.a m (if get_flag cpu.status FLAG_C then 1 else 0))) ∧
    (get_flag (do_adc cpu m).status FLAG_V =
      (decide (cpu.a.testBit 7 = m.testBit 7) &&
       !(decide ((adc_prefix_value cpu.a m
           (if get_flag cpu.status FLAG_C then 1 else 0)).testBit 7 = cpu.a.testBit 7)))) ∧
    ((do_adc cpu m).a =
      adc_bcd_a cpu.a m (if get_flag cpu.status FLAG_C then 1 else 0)) := by
  simp only [do_adc, hD, if_true]
  set c := (if get_flag cpu.status FLAG_C = true then 1 else 0) with hc
  set al0 := (cpu.a &&& 15) + (m &&& 15) + c with hal0
  set al := (if al0 > 9 then al0 + 6 else al0) with hal
  set ah0 := cpu.a >>> 4 + m >>> 4 + (if al > 15 then 1 else 0) with hah0
  set ah := (if ah0 > 9 then ah0 + 6 else ah0) with hah
  have hl : adc_bcd_low cpu.a m c = al := by
    simp only [adc_bcd_low]
    rw [hal, hal0, land_15, land_15]
  have hh : adc_bcd_high0 cpu.a m c = ah0 := by
    simp only [adc_bcd_high0]
    rw [hl, hah0, shiftRight_4, shiftRight_4]
  have hal15 : al &&& 15 < 16 := lt_of_le_of_lt Nat.and_le_right (by norm_num)
  have hpre : adc_prefix_value cpu.a m c = ((ah0 <<< 4) ||| (al &&& 15)) % 256 := by
    simp only [adc_prefix_value]
    rw [hh, hl, lor_nib_lo _ _ hal15, land_15]
    ring_nf
  refine ⟨?_, ?_, ?_, ?_⟩
  · rw [(chain_znvc cpu.status hst _ _ _ _).1, Bool.eq_iff_iff]
    simp [beq_iff_eq, land_255]
  · rw [(chain_znvc cpu.status hst _ _ _ _).2.1, hpre, Bool.eq_iff_iff]
    simp only [decide_eq_true_eq, and_128_ne]
    rw [testBit_7_iff _ (Nat.mod_lt _ (by norm_num))]
  · rw [(chain_znvc cpu.status hst _ _ _ _).2.2.1, hpre]
    have h7 : ((ah0 <<< 4 ||| (al &&& 15)) % 256).testBit 7 = (ah0 <<< 4).testBit 7 := by
      rw [lor_nib_lo _ _ hal15, land_15, shiftLeft_4]
      rw [Nat.testBit_to_div_mod, Nat.testBit_to_div_mod]
      simp only [decide_eq_decide]
      omega
    rw [h7, Bool.eq_iff_iff]
    simp only [and_and_128_ne, Bool.and_eq_true, decide_eq_true_eq,
      Bool.not_eq_true', decide_eq_false_iff_not]
    rcases ha7 : cpu.a.testBit 7 <;> rcases hm7 : m.testBit 7 <;>
      rcases hs7 : (ah0 <<< 4).testBit 7 <;>
        simp_all [Nat.testBit_xor, (by decide : Nat.testBit 255 7 = true)]
  · have hba : adc_bcd_a cpu.a m c = ah % 16 * 16 + al % 16 := by
      simp only [adc_bcd_a]
      rw [hh, hl, hah]
    rw [hba]
    rw [lor_nib_lo _ _ hal15, land_15, land_15]
    omega


theorem land_256_ite (n : Nat) : n &&& 256 = if n / 256 % 2 = 1 then 256 else 0 := by
  have h := Nat.and_two_pow n 8
  rw [Nat.testBit_to_div_mod] at h
  norm_num at h
  rcases hd : decide (n / 256 % 2 = 1) <;> simp_all

theorem land_128_ite (n : Nat) : n &&& 128 = if n / 128 % 2 = 1 then 128 else 0 := by
  have h := Nat.and_two_pow n 7
  rw [Nat.testBit_to_div_mod] at h
  norm_num at h
  rcases hd : decide (n / 128 % 2 = 1) <;> simp_all

theorem sbcC_bool (a m borrow : Nat) (ha : a < 256) (hm : m < 256) (hb : borrow ≤ 1) :
    (((((a : Int) - m - borrow) % 65536).toNat &&& 256) == 0) =
      decide ((m : Int) + borrow ≤ a) := by
  set n := ((((a : Int) - m - borrow) % 65536)).toNat with hn
  have hni : (n : Int) = ((a : Int) - m - borrow) % 65536 := by
    rw [hn]
    exact Int.toNat_of_nonneg (Int.emod_nonneg _ (by norm_num))
  rw [Bool.eq_iff_iff]
  simp only [beq_iff_eq, decide_eq_true_eq, land_256_ite]
  split_ifs with hbit
  · constructor
    · intro h0; exact absurd h0 (by norm_num)
    · intro hle; exfalso; omega
  · constructor
    · intro h0; omega
    · intro hle; rfl

theorem sbcZ_bool (a m borrow : Nat) (ha : a < 256) (hm : m < 256) (hb : borrow ≤ 1) :
    (((((a : Int) - m - borrow) % 65536).toNat &&& 255) == 0) =
      decide (((a : Int) - m - borrow) % 256 = 0) := by
  set n := ((((a : Int) - m - borrow) % 65536)).toNat with hn
  have hni : (n : Int) = ((a : Int) - m - borrow) % 65536 := by
    rw [hn]
    exact Int.toNat_of_nonneg (Int.emod_nonneg _ (by norm_num))
  rw [Bool.eq_iff_iff]
  simp only [beq_iff_eq, decide_eq_true_eq, land_255]
  omega

theorem sbcN_bool (a m borrow : Nat) (ha : a < 256) (hm : m < 256) (hb : borrow ≤ 1) :
    (decide (((((a : Int) - m - borrow) % 65536).toNat &&& 128) ≠ 0)) =
      decide (128 ≤ ((a : Int) - m - borrow) % 256) := by
  set n := ((((a : Int) - m - borrow) % 65536)).toNat with hn
  have hni : (n : Int) = ((a : Int) - m - borrow) % 65536 := by
    rw [hn]
    exact Int.toNat_of_nonneg (Int.emod_nonneg _ (by norm_num))
  rw [Bool.eq_iff_iff]
  simp only [ne_eq, decide_eq_true_eq, land_128_ite]
  split_ifs with hbit
  · constructor
    · intro _; omega
    · intro _; norm_num
  · constructor
    · intro h0; exact absurd rfl h0
    · intro hle; exfalso; omega

theorem sbcV_bool (a m borrow : Nat) (ha : a < 256) (hm : m < 256) (hb : borrow ≤ 1) :
    (decide (((a ^^^ m) &&& (a ^^^ (((a : Int) - m - borrow) % 65536).toNat) &&& 128) ≠ 0)) =
      (!(decide (a.testBit 7 = m.testBit 7)) &&
       !(decide (((((a : Int) - m - borrow) % 256).toNat).testBit 7 = a.testBit 7))) := by
  set n := ((((a : Int) - m - borrow) % 65536)).toNat with hn
  have hni : (n : Int) = ((a : Int) - m - borrow) % 65536 := by
    rw [hn]
    exact Int.toNat_of_nonneg (Int.emod_nonneg _ (by norm_num))
  set z := ((((a : Int) - m - borrow) % 256)).toNat with hz
  have hzi : (z : Int) = ((a : Int) - m - borrow) % 256 := by
    rw [hz]
    exact Int.toNat_of_nonneg (Int.emod_nonneg _ (by norm_num))
  have hmod : n % 256 = z := by omega
  have h7 : n.testBit 7 = z.testBit 7 := by
    have h := Nat.testBit_mod_two_pow n 8 7
    norm_num at h
    rw [← h, hmod]
  rw [Bool.eq_iff_iff]
  simp only [ne_eq, decide_eq_true_eq, and_and_128_ne, Bool.and_eq_true,
    Bool.not_eq_true', decide_eq_false_iff_not]
  rcases ha7 : a.testBit 7 <;> rcases hm7 : m.testBit 7 <;> rcases hz7 : z.testBit 7 <;>
    simp_all [Nat.testBit_xor]



theorem sbc_dec_a_eq (a m borrow : Nat) :
    sbc_dec_a a m borrow = sbc_bcd_a a m borrow := by
  simp only [sbc_dec_a, sbc_bcd_a, sbc_bcd_low]
  rw [land_15, land_15, shiftRight_4, shiftRight_4]
  set al0 : Int := ((a % 16 : Nat) : Int) - ((m % 16 : Nat) : Int) - borrow with hal0
  set al : Int := (if al0 < 0 then ((al0 - 6) % 16) - 16 else al0) with hal
  set ah0 : Int := ((a / 16 : Nat) : Int) - ((m / 16 : Nat) : Int) + (if al < 0 then -1 else 0) with hah0
  set ah : Int := (if ah0 < 0 then ah0 - 6 else ah0) with hah
  have h1 : (0 : Int) ≤ al % 16 := Int.emod_nonneg _ (by norm_num)
  have h2 : al % 16 < 16 := Int.emod_lt_of_pos _ (by norm_num)
  have h3 : (0 : Int) ≤ ah % 16 := Int.emod_nonneg _ (by norm_num)
  have h4 : ah % 16 < 16 := Int.emod_lt_of_pos _ (by norm_num)
  have h5 : (al % 16).toNat < 16 := by omega
  rw [lor_nib_lo _ _ h5]
  omega

set_option maxHeartbeats 1000000 in
theorem sbc_decimal_spec (cpu : CPU) (m : Nat)
    (ha : cpu.a < 256) (hm : m < 256) (hst : cpu.status < 256)
    (hD : get_flag cpu.status FLAG_D = true) :
    (get_flag (do_sbc cpu m).status FLAG_C =
      decide ((m : Int) + ((if get_flag cpu.status FLAG_C then 0 else 1 : Nat) : Int) ≤ (cpu.a : Int))) ∧
    (get_flag (do_sbc cpu m).status FLAG_Z =
      decide ((sbc_bin cpu.a m (if get_flag cpu.status FLAG_C then 0 else 1)) % 256 = 0)) ∧
    (get_flag (do_sbc cpu m).status FLAG_N =
      decide (128 ≤ (sbc_bin cpu.a m (if get_flag cpu.status FLAG_C then 0 else 1)) % 256)) ∧
    (get_flag (do_sbc cpu m).status FLAG_V =
      (!(decide (cpu.a.testBit 7 = m.testBit 7)) &&
       !(decide ((((sbc_bin cpu.a m (if get_flag cpu.status FLAG_C then 0 else 1)) % 256).toNat).testBit 7
            = cpu.a.testBit 7)))) ∧
    ((do_sbc cpu m).a =
      sbc_bcd_a cpu.a m (if get_flag cpu.status FLAG_C then 0 else 1)) := by
  simp only [do_sbc, hD, if_true]
  have hbr : (if get_flag cpu.status FLAG_C = true then 0 else 1) ≤ 1 := by
    split <;> norm_num
  refine ⟨?_, ?_, ?_, ?_, ?_⟩
  · rw [(chain_cznv cpu.status hst _ _ _ _).1]
    exact sbcC_bool cpu.a m _ ha hm hbr
  · rw [(chain_cznv cpu.status hst _ _ _ _).2.1]
    exact sbcZ_bool cpu.a m _ ha hm hbr
  · rw [(chain_cznv cpu.status hst _ _ _ _).2.2.1]
    exact sbcN_bool cpu.a m _ ha hm hbr
  · rw [(chain_cznv cpu.status hst _ _ _ _).2.2.2]
    exact sbcV_bool cpu.a m _ ha hm hbr
  · exact sbc_dec_a_eq cpu.a m _

/-- C1: with the D flag set, ADC performs per-nibble BCD adjustment of
A, sets Z from the 8-bit binary sum `A + M + C`, and sets N and V from
the value computed before the high-nibble BCD fixup; SBC with D set
performs per-nibble BCD adjustment of A but sets all of C, Z, N, V from
the binary result `A - M - (1 - C)`. -/
theorem c1_bcd_adc_sbc (cpu : CPU) (m : Nat)
    (ha : cpu.a < 256) (hm : m < 256) (hst : cpu.status < 256)
    (hD : get_flag cpu.status FLAG_D = true) :
    ((get_flag (do_adc cpu m).status FLAG_Z =
      decide ((cpu.a + m + (if get_flag cpu.status FLAG_C then 1 else 0)) % 256 = 0)) ∧
     (get_flag (do_adc cpu m).status FLAG_N =
      decide (128 ≤ adc_prefix_value cpu.a m (if get_flag cpu.status FLAG_C then 1 else 0))) ∧
     (get_flag (do_adc cpu m).status FLAG_V =
      (decide (cpu.a.testBit 7 = m.testBit 7) &&
       !(decide ((adc_prefix_value cpu.a m
           (if get_flag cpu.status FLAG_C then 1 else 0)).testBit 7 = cpu.a.testBit 7)))) ∧
     ((do_adc cpu m).a =
      adc_bcd_a cpu.a m (if get_flag cpu.status FLAG_C then 1 else 0))) ∧
    ((get_flag (do_sbc cpu m).status FLAG_C =
      decide ((m : Int) + ((if get_flag cpu.status FLAG_C then 0 else 1 : Nat) : Int) ≤ (cpu.a : Int))) ∧
     (get_flag (do_sbc cpu m).status FLAG_Z =
      decide ((sbc_bin cpu.a m (if get_flag cpu.status FLAG_C then 0 else 1)) % 256 = 0)) ∧
     (get_flag (do_sbc cpu m).status FLAG_N =
      decide (128 ≤ (sbc_bin cpu.a m (if get_flag cpu.status FLAG_C then 0 else 1)) % 256)) ∧
     (get_flag (do_sbc cpu m).status FLAG_V =
      (!(decide (cpu.a.testBit 7 = m.testBit 7)) &&
       !(decide ((((sbc_bin cpu.a m (if get_flag cpu.status FLAG_C then 0 else 1)) % 256).toNat).testBit 7
            = cpu.a.testBit 7)))) ∧
     ((do_sbc cpu m).a =
      sbc_bcd_a cpu.a m (if get_flag cpu.status FLAG_C then 0 else 1))) :=
  ⟨adc_decimal_spec cpu m ha hm hst hD, sbc_decimal_spec cpu m ha hm hst hD⟩

/-- Closed witness for C1 at A = 0x75, M = 0x26, status = 0x28 (D set,
C clear). -/
theorem c1_bcd_adc_sbc_witness :
    ({ cpu6502_init with a := 0x75, status := 0x28 } : CPU).a < 256 ∧
    (0x26 : Nat) < 256 ∧
    ({ cpu6502_init with a := 0x75, status := 0x28 } : CPU).status < 256 ∧
    get_flag ({ cpu6502_init with a := 0x75, status := 0x28 } : CPU).status FLAG_D = true ∧
    (do_adc { cpu6502_init with a := 0x75, status := 0x28 } 0x26).a =
      adc_bcd_a 0x75 0x26 (if get_flag ({ cpu6502_init with a := 0x75, status := 0x28 } : CPU).status FLAG_C then 1 else 0) ∧
    (do_sbc { cpu6502_init with a := 0x75, status := 0x28 } 0x26).a =
      sbc_bcd_a 0x75 0x26 (if get_flag ({ cpu6502_init with a := 0x75, status := 0x28 } : CPU).status FLAG_C then 0 else 1) :=
  ⟨by decide, by decide, by decide, by decide,
   (c1_bcd_adc_sbc { cpu6502_init with a := 0x75, status := 0x28 } 0x26
     (by decide) (by decide) (by decide) (by decide)).1.2.2.2,
   (c1_bcd_adc_sbc { cpu6502_init with a := 0x75, status := 0x28 } 0x26
     (by decide) (by decide) (by decide) (by decide)).2.2.2.2.2⟩

/-! ### C2 / C4 machinery: per-opcode classification and generic
handler lemmas.

`is_branch`, `branch_taken` and `is_indexed_read` record, opcode by
opcode, which dispatch-table entries are branches (and their flag
condition) and which read handlers carry the page-cross cycle penalty
(`if (cpu->page_crossed) cpu->cycles++`). -/

/-- The eight branch opcodes. -/
def is_branch (op : Nat) : Bool :=
  op == 0x10 || op == 0x30 || op == 0x50 || op == 0x70 ||
  op == 0x90 || op == 0xB0 || op == 0xD0 || op == 0xF0

/-- The branch condition of each branch opcode, on a status byte. -/
def branch_taken (op : Nat) (st : Nat) : Bool :=
  match op with
  | 0x10 => !(get_flag st FLAG_N)
  | 0x30 => get_flag st FLAG_N
  | 0x50 => !(get_flag st FLAG_V)
  | 0x70 => get_flag st FLAG_V
  | 0x90 => !(get_flag st FLAG_C)
  | 0xB0 => get_flag st FLAG_C
  | 0xD0 => !(get_flag st FLAG_Z)
  | 0xF0 => get_flag st FLAG_Z
  | _ => false

/-- The 19 read opcodes whose handlers add one cycle on a page cross
(LDA/LDX/LDY/ADC/SBC/CMP/AND/EOR/ORA with abs,X / abs,Y / (ind),Y). -/
def is_indexed_read (op : Nat) : Bool :=
  op == 0xBD || op == 0xB9 || op == 0xB1 ||
  op == 0xBE || op == 0xBC ||
  op == 0x7D || op == 0x79 || op == 0x71 ||
  op == 0xFD || op == 0xF9 || op == 0xF1 ||
  op == 0xDD || op == 0xD9 || op == 0xD1 ||
  op == 0x3D || op == 0x39 || op == 0x31 ||
  op == 0x5D || op == 0x59 || op == 0x51 ||
  op == 0x1D || op == 0x19 || op == 0x11

/-- The live-status invariant of the claim: bit 5 set, bit 4 clear. -/
def StatusOK (st : Nat) : Prop := st.testBit 5 = true ∧ st.testBit 4 = false

theorem statusOK_set_flag (s m : Nat) (b : Bool)
    (hm5 : m.testBit 5 = false) (hm4 : m.testBit 4 = false)
    (h : StatusOK s) : StatusOK (set_flag s m b) := by
  obtain ⟨h5, h4⟩ := h
  rcases b <;>
    simp [set_flag, StatusOK, Nat.testBit_or, Nat.testBit_and, Nat.testBit_xor,
      h5, h4, hm5, hm4, (by decide : Nat.testBit 255 5 = true),
      (by decide : Nat.testBit 255 4 = true)]

theorem statusOK_set_nz (s v : Nat) (h : StatusOK s) : StatusOK (set_nz s v) := by
  unfold set_nz
  apply statusOK_set_flag _ _ _ (by decide) (by decide)
  exact statusOK_set_flag _ _ _ (by decide) (by decide) h

/-- PLP/RTI force the pulled byte's unused bit on and B bit off. -/
theorem statusOK_forced (x : Nat) :
    StatusOK ((x ||| FLAG_U) &&& (0xFF ^^^ FLAG_B)) := by
  constructor <;>
    simp [FLAG_U, FLAG_B, StatusOK, Nat.testBit_or, Nat.testBit_and, Nat.testBit_xor,
      (by decide : Nat.testBit 32 5 = true), (by decide : Nat.testBit 32 4 = false),
      (by decide : Nat.testBit 239 5 = true),
      (by decide : Nat.testBit 239 4 = false)]

/-- RESET forces I and the unused bit on. -/
theorem statusOK_reset (s : Nat) (h : StatusOK s) :
    StatusOK ((s ||| FLAG_I) ||| FLAG_U) := by
  obtain ⟨h5, h4⟩ := h
  constructor <;>
    simp [FLAG_U, FLAG_I, Nat.testBit_or, h5, h4,
      (by decide : Nat.testBit 4 5 = false), (by decide : Nat.testBit 4 4 = false),
      (by decide : Nat.testBit 32 5 = true), (by decide : Nat.testBit 32 4 = false)]

/-- A handler preserves the live-status invariant. -/
def HandlerStatusOK (h : Sys σ → Sys σ) : Prop :=
  ∀ s : Sys σ, StatusOK s.cpu.status → StatusOK ((h s).cpu.status)

/-- A handler charges 0, 1 or 2 extra cycles (mod 2^64), with +1 only
for a taken branch or an indexed-read page cross, and +2 only for a
taken branch whose target page differs from the post-operand PC. -/
def HandlerCycles (op : Nat) (h : Sys σ → Sys σ) : Prop :=
  ∀ s : Sys σ, s.cpu.cycles < M64 →
    ∃ e : Nat, e ≤ 2 ∧
      (h s).cpu.cycles = (s.cpu.cycles + e) % M64 ∧
      (1 ≤ e →
        (is_branch op = true ∧ branch_taken op s.cpu.status = true) ∨
        (is_indexed_read op = true ∧ (h s).cpu.page_crossed = true)) ∧
      (e = 2 →
        is_branch op = true ∧ branch_taken op s.cpu.status = true ∧
        ((s.cpu.pc + 1) % 65536) &&& 0xFF00 ≠ (h s).cpu.pc &&& 0xFF00)

def HandlerOK (op : Nat) (h : Sys σ → Sys σ) : Prop :=
  HandlerStatusOK h ∧ HandlerCycles op h

/-- An addressing helper leaves status and cycles untouched. -/
def AddrOK (mode : Sys σ → Nat × Sys σ) : Prop :=
  ∀ s : Sys σ, (mode s).2.cpu.status = s.cpu.status ∧ (mode s).2.cpu.cycles = s.cpu.cycles

theorem addrok_imm : AddrOK (σ := σ) addr_imm := fun _ => ⟨rfl, rfl⟩
theorem addrok_zpg : AddrOK (addr_zpg B) := fun _ => ⟨rfl, rfl⟩
theorem addrok_zpx : AddrOK (addr_zpx B) := fun _ => ⟨rfl, rfl⟩
theorem addrok_zpy : AddrOK (addr_zpy B) := fun _ => ⟨rfl, rfl⟩
theorem addrok_abs : AddrOK (addr_abs B) := fun _ => ⟨rfl, rfl⟩
theorem addrok_abx : AddrOK (addr_abx B) := fun _ => ⟨rfl, rfl⟩
theorem addrok_aby : AddrOK (addr_aby B) := fun _ => ⟨rfl, rfl⟩
theorem addrok_izx : AddrOK (addr_izx B) := fun _ => ⟨rfl, rfl⟩
theorem addrok_izy : AddrOK (addr_izy B) := fun _ => ⟨rfl, rfl⟩

/-- A read-style instruction core leaves cycles untouched and
preserves the live-status invariant. -/
def CoreOK (core : CPU → Nat → CPU) : Prop :=
  ∀ cpu v, (core cpu v).cycles = cpu.cycles ∧
    (StatusOK cpu.status → StatusOK ((core cpu v).status))

theorem coreok_lda : CoreOK lda_core :=
  fun _ _ => ⟨rfl, fun h => statusOK_set_nz _ _ h⟩
theorem coreok_ldx : CoreOK ldx_core :=
  fun _ _ => ⟨rfl, fun h => statusOK_set_nz _ _ h⟩
theorem coreok_ldy : CoreOK ldy_core :=
  fun _ _ => ⟨rfl, fun h => statusOK_set_nz _ _ h⟩

theorem coreok_adc : CoreOK adc_core := by
  intro cpu v
  unfold adc_core do_adc
  split
  · exact ⟨rfl, fun h => statusOK_set_flag _ _ _ (by decide) (by decide)
      (statusOK_set_flag _ _ _ (by decide) (by decide)
        (statusOK_set_flag _ _ _ (by decide) (by decide)
          (statusOK_set_flag _ _ _ (by decide) (by decide) h)))⟩
  · exact ⟨rfl, fun h => statusOK_set_nz _ _
      (statusOK_set_flag _ _ _ (by decide) (by decide)
        (statusOK_set_flag _ _ _ (by decide) (by decide) h))⟩

theorem coreok_sbc : CoreOK sbc_core := by
  intro cpu v
  unfold sbc_core do_sbc
  split
  · exact ⟨rfl, fun h => statusOK_set_flag _ _ _ (by decide) (by decide)
      (statusOK_set_flag _ _ _ (by decide) (by decide)
        (statusOK_set_flag _ _ _ (by decide) (by decide)
          (statusOK_set_flag _ _ _ (by decide) (by decide) h)))⟩
  · exact coreok_adc cpu (v ^^^ 0xFF)

theorem coreok_cmp_gen (sel : CPU → Nat) :
    CoreOK (fun cpu v => do_cmp cpu (sel cpu) v) := by
  intro cpu v
  exact ⟨rfl, fun h => statusOK_set_flag _ _ _ (by decide) (by decide)
    (statusOK_set_flag _ _ _ (by decide) (by decide)
      (statusOK_set_flag _ _ _ (by decide) (by decide) h))⟩

theorem coreok_cmp : CoreOK cmp_core := coreok_cmp_gen CPU.a
theorem coreok_cpx : CoreOK cpx_core := coreok_cmp_gen CPU.x
theorem coreok_cpy : CoreOK cpy_core := coreok_cmp_gen CPU.y

theorem coreok_and : CoreOK and_core :=
  fun _ _ => ⟨rfl, fun h => statusOK_set_nz _ _ h⟩
theorem coreok_ora : CoreOK ora_core :=
  fun _ _ => ⟨rfl, fun h => statusOK_set_nz _ _ h⟩
theorem coreok_eor : CoreOK eor_core :=
  fun _ _ => ⟨rfl, fun h => statusOK_set_nz _ _ h⟩

theorem coreok_bit : CoreOK bit_core :=
  fun _ _ => ⟨rfl, fun h => statusOK_set_flag _ _ _ (by decide) (by decide)
    (statusOK_set_flag _ _ _ (by decide) (by decide)
      (statusOK_set_flag _ _ _ (by decide) (by decide) h))⟩

/-- Same as `CoreOK` for read-modify-write cores. -/
def CoreRmwOK (core : CPU → Nat → Nat × CPU) : Prop :=
  ∀ cpu v, (core cpu v).2.cycles = cpu.cycles ∧
    (StatusOK cpu.status → StatusOK ((core cpu v).2.status))

theorem coreok_asl : CoreRmwOK do_asl :=
  fun _ _ => ⟨rfl, fun h => statusOK_set_nz _ _
    (statusOK_set_flag _ _ _ (by decide) (by decide) h)⟩
theorem coreok_lsr : CoreRmwOK do_lsr :=
  fun _ _ => ⟨rfl, fun h => statusOK_set_nz _ _
    (statusOK_set_flag _ _ _ (by decide) (by decide) h)⟩
theorem coreok_rol : CoreRmwOK do_rol :=
  fun _ _ => ⟨rfl, fun h => statusOK_set_nz _ _
    (statusOK_set_flag _ _ _ (by decide) (by decide) h)⟩
theorem coreok_ror : CoreRmwOK do_ror :=
  fun _ _ => ⟨rfl, fun h => statusOK_set_nz _ _
    (statusOK_set_flag _ _ _ (by decide) (by decide) h)⟩
theorem coreok_inc : CoreRmwOK inc_core :=
  fun _ _ => ⟨rfl, fun h => statusOK_set_nz _ _ h⟩
theorem coreok_dec : CoreRmwOK dec_core :=
  fun _ _ => ⟨rfl, fun h => statusOK_set_nz _ _ h⟩

/-- Same as `CoreOK` for bus-free CPU transformations. -/
def CPUFnOK (f : CPU → CPU) : Prop :=
  ∀ cpu, (f cpu).cycles = cpu.cycles ∧
    (StatusOK cpu.status → StatusOK ((f cpu).status))


/-- Handlers that never touch the cycle counter satisfy the cycle spec
with `e = 0`. -/
theorem handlerOK_noextra (op : Nat) (h : Sys σ → Sys σ)
    (hst : HandlerStatusOK h)
    (hcy : ∀ s : Sys σ, (h s).cpu.cycles = s.cpu.cycles) : HandlerOK op h := by
  refine ⟨hst, fun s hlt => ⟨0, by norm_num, ?_, ?_, ?_⟩⟩
  · rw [hcy s, Nat.add_zero, Nat.mod_eq_of_lt hlt]
  · intro hh; exact absurd hh (by norm_num)
  · intro hh; exact absurd hh (by norm_num)

theorem handlerOK_readOp (op : Nat) (mode : Sys σ → Nat × Sys σ)
    (core : CPU → Nat → CPU) (hm : AddrOK mode) (hc : CoreOK core) :
    HandlerOK op (readOp B mode core) := by
  apply handlerOK_noextra
  · intro s h
    refine (hc (mode s).2.cpu ((cpu_read B (mode s).2 (mode s).1).1)).2 ?_
    rw [(hm s).1]; exact h
  · intro s
    show (core (mode s).2.cpu ((cpu_read B (mode s).2 (mode s).1).1)).cycles = s.cpu.cycles
    rw [(hc _ _).1, (hm s).2]

theorem handlerOK_readOpPX (op : Nat) (mode : Sys σ → Nat × Sys σ)
    (core : CPU → Nat → CPU) (hm : AddrOK mode) (hc : CoreOK core)
    (hop : is_indexed_read op = true) :
    HandlerOK op (readOpPX B mode core) := by
  have hro := handlerOK_readOp (B := B) op mode core hm hc
  have hcyc : ∀ s : Sys σ, (readOp B mode core s).cpu.cycles = s.cpu.cycles := by
    intro s
    show (core (mode s).2.cpu ((cpu_read B (mode s).2 (mode s).1).1)).cycles = s.cpu.cycles
    rw [(hc _ _).1, (hm s).2]
  constructor
  · intro s h
    by_cases hpx : (readOp B mode core s).cpu.page_crossed = true
    · simp only [readOpPX]
      rw [if_pos hpx]
      exact hro.1 s h
    · simp only [readOpPX]
      rw [if_neg hpx]
      exact hro.1 s h
  · intro s hlt
    by_cases hpx : (readOp B mode core s).cpu.page_crossed = true
    · refine ⟨1, by norm_num, ?_, ?_, ?_⟩
      · simp only [readOpPX]
        rw [if_pos hpx]
        show ((readOp B mode core s).cpu.cycles + 1) % M64 = (s.cpu.cycles + 1) % M64
        rw [hcyc]
      · intro _
        refine Or.inr ⟨hop, ?_⟩
        simp only [readOpPX]
        rw [if_pos hpx]
        exact hpx
      · intro hh; exact absurd hh (by norm_num)
    · refine ⟨0, by norm_num, ?_, ?_, ?_⟩
      · simp only [readOpPX]
        rw [if_neg hpx]
        rw [hcyc, Nat.add_zero, Nat.mod_eq_of_lt hlt]
      · intro hh; exact absurd hh (by norm_num)
      · intro hh; exact absurd hh (by norm_num)

theorem handlerOK_storeOp (op : Nat) (mode : Sys σ → Nat × Sys σ)
    (sel : CPU → Nat) (hm : AddrOK mode) :
    HandlerOK op (storeOp B mode sel) := by
  apply handlerOK_noextra
  · intro s h
    show StatusOK ((mode s).2.cpu.status)
    rw [(hm s).1]; exact h
  · intro s
    show (mode s).2.cpu.cycles = s.cpu.cycles
    exact (hm s).2

theorem handlerOK_rmwOp (op : Nat) (mode : Sys σ → Nat × Sys σ)
    (core : CPU → Nat → Nat × CPU) (hm : AddrOK mode) (hc : CoreRmwOK core) :
    HandlerOK op (rmwOp B mode core) := by
  apply handlerOK_noextra
  · intro s h
    refine (hc (mode s).2.cpu ((cpu_read B (mode s).2 (mode s).1).1)).2 ?_
    rw [(hm s).1]; exact h
  · intro s
    show (core (mode s).2.cpu ((cpu_read B (mode s).2 (mode s).1).1)).2.cycles = s.cpu.cycles
    rw [(hc _ _).1, (hm s).2]

theorem handlerOK_implied (op : Nat) (f : CPU → CPU) (hf : CPUFnOK f) :
    HandlerOK op (impliedOp (σ := σ) f) := by
  apply handlerOK_noextra
  · intro s h
    exact (hf s.cpu).2 h
  · intro s
    exact (hf s.cpu).1

theorem handlerOK_branch (op : Nat) (flag : Nat) (want : Bool)
    (hop : is_branch op = true)
    (hbt : ∀ st, branch_taken op st = (get_flag st flag == want)) :
    HandlerOK op (branchOp B flag want) := by
  constructor
  · intro s h
    by_cases hcond : get_flag (fetch B s).2.cpu.status flag = want
    · simp only [branchOp]
      rw [if_pos hcond]
      by_cases hpage :
          (fetch B s).2.cpu.pc &&& 0xFF00 ≠
            ((fetch B s).2.cpu.pc +
              (if (fetch B s).1 < 128 then (fetch B s).1 else (fetch B s).1 + 65280)) % 65536
              &&& 0xFF00
      · rw [if_pos hpage]; exact h
      · rw [if_neg hpage]; exact h
    · simp only [branchOp]
      rw [if_neg hcond]
      exact h
  · intro s hlt
    by_cases hcond : get_flag (fetch B s).2.cpu.status flag = want
    · have htk : branch_taken op s.cpu.status = true := by
        rw [hbt]
        have hg : get_flag s.cpu.status flag = want := hcond
        simp [hg]
      by_cases hpage :
          (fetch B s).2.cpu.pc &&& 0xFF00 ≠
            ((fetch B s).2.cpu.pc +
              (if (fetch B s).1 < 128 then (fetch B s).1 else (fetch B s).1 + 65280)) % 65536
              &&& 0xFF00
      · refine ⟨2, by norm_num, ?_, fun _ => Or.inl ⟨hop, htk⟩, fun _ => ⟨hop, htk, ?_⟩⟩
        · simp only [branchOp]
          rw [if_pos hcond, if_pos hpage]
          show ((s.cpu.cycles + 1) % M64 + 1) % M64 = (s.cpu.cycles + 2) % M64
          rw [Nat.mod_add_mod]
        · simp only [branchOp]
          rw [if_pos hcond, if_pos hpage]
          exact hpage
      · refine ⟨1, by norm_num, ?_, fun _ => Or.inl ⟨hop, htk⟩, ?_⟩
        · simp only [branchOp]
          rw [if_pos hcond, if_neg hpage]
          rfl
        · intro hh; exact absurd hh (by norm_num)
    · refine ⟨0, by norm_num, ?_, ?_, ?_⟩
      · simp only [branchOp]
        rw [if_neg hcond, Nat.add_zero, Nat.mod_eq_of_lt hlt]
        rfl
      · intro hh; exact absurd hh (by norm_num)
      · intro hh; exact absurd hh (by norm_num)

/-! ### HandlerOK instances for the individual handlers.
Handlers that never touch the cycle counter satisfy `HandlerOK op`
for every `op`, so these lemmas are generic in the opcode. -/

theorem handlerok_ill (op : Nat) : HandlerOK (σ := σ) op op_ill :=
  handlerOK_noextra op _ (fun _ h => h) (fun _ => rfl)

set_option maxRecDepth 10000 in
set_option maxHeartbeats 1000000 in
theorem handlerok_jmp_abs (op : Nat) : HandlerOK op (op_jmp_abs B) :=
  handlerOK_noextra op _ (fun _ h => h) (fun _ => rfl)

set_option maxRecDepth 10000 in
set_option maxHeartbeats 1000000 in
theorem handlerok_jmp_ind (op : Nat) : HandlerOK op (op_jmp_ind B) :=
  handlerOK_noextra op _ (fun _ h => h) (fun _ => rfl)

set_option maxRecDepth 10000 in
set_option maxHeartbeats 1000000 in
theorem handlerok_jsr (op : Nat) : HandlerOK op (op_jsr B) :=
  handlerOK_noextra op _ (fun _ h => h) (fun _ => rfl)

set_option maxRecDepth 10000 in
set_option maxHeartbeats 1000000 in
theorem handlerok_rts (op : Nat) : HandlerOK op (op_rts B) :=
  handlerOK_noextra op _ (fun _ h => h) (fun _ => rfl)

set_option maxRecDepth 10000 in
set_option maxHeartbeats 1000000 in
theorem handlerok_pha (op : Nat) : HandlerOK op (op_pha B) :=
  handlerOK_noextra op _ (fun _ h => h) (fun _ => rfl)

set_option maxRecDepth 10000 in
set_option maxHeartbeats 1000000 in
theorem handlerok_php (op : Nat) : HandlerOK op (op_php B) :=
  handlerOK_noextra op _ (fun _ h => h) (fun _ => rfl)

set_option maxRecDepth 10000 in
set_option maxHeartbeats 1000000 in
theorem handlerok_brk (op : Nat) : HandlerOK op (op_brk B) := by
  apply handlerOK_noextra
  · intro s h
    simp only [op_brk, cpu_push16, cpu_push, cpu_write, cpu_read, pcInc, cpuSetFlag]
    exact statusOK_set_flag _ _ _ (by decide) (by decide) h
  · intro s
    simp only [op_brk, cpu_push16, cpu_push, cpu_write, cpu_read, pcInc, cpuSetFlag]

set_option maxRecDepth 10000 in
set_option maxHeartbeats 1000000 in
theorem handlerok_rti (op : Nat) : HandlerOK op (op_rti B) :=
  handlerOK_noextra op _ (fun _ _ => statusOK_forced _) (fun _ => rfl)

set_option maxRecDepth 10000 in
set_option maxHeartbeats 1000000 in
theorem handlerok_plp (op : Nat) : HandlerOK op (op_plp B) :=
  handlerOK_noextra op _ (fun _ _ => statusOK_forced _) (fun _ => rfl)

set_option maxRecDepth 10000 in
set_option maxHeartbeats 1000000 in
theorem handlerok_pla (op : Nat) : HandlerOK op (op_pla B) :=
  handlerOK_noextra op _ (fun _ h => statusOK_set_nz _ _ h) (fun _ => rfl)

theorem handlerok_asl_acc (op : Nat) : HandlerOK (σ := σ) op op_asl_acc :=
  handlerOK_implied op (fun cpu => let r := do_asl cpu cpu.a; { r.2 with a := r.1 }) (fun _ => ⟨rfl, fun h =>
    statusOK_set_nz _ _ (statusOK_set_flag _ _ _ (by decide) (by decide) h)⟩)

theorem handlerok_lsr_acc (op : Nat) : HandlerOK (σ := σ) op op_lsr_acc :=
  handlerOK_implied op (fun cpu => let r := do_lsr cpu cpu.a; { r.2 with a := r.1 }) (fun _ => ⟨rfl, fun h =>
    statusOK_set_nz _ _ (statusOK_set_flag _ _ _ (by decide) (by decide) h)⟩)

theorem handlerok_rol_acc (op : Nat) : HandlerOK (σ := σ) op op_rol_acc :=
  handlerOK_implied op (fun cpu => let r := do_rol cpu cpu.a; { r.2 with a := r.1 }) (fun _ => ⟨rfl, fun h =>
    statusOK_set_nz _ _ (statusOK_set_flag _ _ _ (by decide) (by decide) h)⟩)

theorem handlerok_ror_acc (op : Nat) : HandlerOK (σ := σ) op op_ror_acc :=
  handlerOK_implied op (fun cpu => let r := do_ror cpu cpu.a; { r.2 with a := r.1 }) (fun _ => ⟨rfl, fun h =>
    statusOK_set_nz _ _ (statusOK_set_flag _ _ _ (by decide) (by decide) h)⟩)

theorem handlerok_inx (op : Nat) : HandlerOK (σ := σ) op op_inx :=
  handlerOK_implied op (fun cpu => cpuSetNZ { cpu with x := (cpu.x + 1) % 256 } ((cpu.x + 1) % 256)) (fun _ => ⟨rfl, fun h => statusOK_set_nz _ _ h⟩)

theorem handlerok_iny (op : Nat) : HandlerOK (σ := σ) op op_iny :=
  handlerOK_implied op (fun cpu => cpuSetNZ { cpu with y := (cpu.y + 1) % 256 } ((cpu.y + 1) % 256)) (fun _ => ⟨rfl, fun h => statusOK_set_nz _ _ h⟩)

theorem handlerok_dex (op : Nat) : HandlerOK (σ := σ) op op_dex :=
  handlerOK_implied op (fun cpu => cpuSetNZ { cpu with x := (cpu.x + 255) % 256 } ((cpu.x + 255) % 256)) (fun _ => ⟨rfl, fun h => statusOK_set_nz _ _ h⟩)

theorem handlerok_dey (op : Nat) : HandlerOK (σ := σ) op op_dey :=
  handlerOK_implied op (fun cpu => cpuSetNZ { cpu with y := (cpu.y + 255) % 256 } ((cpu.y + 255) % 256)) (fun _ => ⟨rfl, fun h => statusOK_set_nz _ _ h⟩)

theorem handlerok_tax (op : Nat) : HandlerOK (σ := σ) op op_tax :=
  handlerOK_implied op (fun cpu => cpuSetNZ { cpu with x := cpu.a } cpu.a) (fun _ => ⟨rfl, fun h => statusOK_set_nz _ _ h⟩)

theorem handlerok_tay (op : Nat) : HandlerOK (σ := σ) op op_tay :=
  handlerOK_implied op (fun cpu => cpuSetNZ { cpu with y := cpu.a } cpu.a) (fun _ => ⟨rfl, fun h => statusOK_set_nz _ _ h⟩)

theorem handlerok_txa (op : Nat) : HandlerOK (σ := σ) op op_txa :=
  handlerOK_implied op (fun cpu => cpuSetNZ { cpu with a := cpu.x } cpu.x) (fun _ => ⟨rfl, fun h => statusOK_set_nz _ _ h⟩)

theorem handlerok_tya (op : Nat) : HandlerOK (σ := σ) op op_tya :=
  handlerOK_implied op (fun cpu => cpuSetNZ { cpu with a := cpu.y } cpu.y) (fun _ => ⟨rfl, fun h => statusOK_set_nz _ _ h⟩)

theorem handlerok_tsx (op : Nat) : HandlerOK (σ := σ) op op_tsx :=
  handlerOK_implied op (fun cpu => cpuSetNZ { cpu with x := cpu.sp } cpu.sp) (fun _ => ⟨rfl, fun h => statusOK_set_nz _ _ h⟩)

theorem handlerok_txs (op : Nat) : HandlerOK (σ := σ) op op_txs :=
  handlerOK_implied op (fun cpu => { cpu with sp := cpu.x }) (fun _ => ⟨rfl, fun h => h⟩)

theorem handlerok_clc (op : Nat) : HandlerOK (σ := σ) op op_clc := by
  apply handlerOK_implied
  intro cpu
  refine ⟨rfl, fun h => ?_⟩
  show StatusOK (set_flag cpu.status FLAG_C false)
  exact statusOK_set_flag _ _ _ (by decide) (by decide) h

theorem handlerok_sec (op : Nat) : HandlerOK (σ := σ) op op_sec := by
  apply handlerOK_implied
  intro cpu
  refine ⟨rfl, fun h => ?_⟩
  show StatusOK (set_flag cpu.status FLAG_C true)
  exact statusOK_set_flag _ _ _ (by decide) (by decide) h

theorem handlerok_cli (op : Nat) : HandlerOK (σ := σ) op op_cli := by
  apply handlerOK_implied
  intro cpu
  refine ⟨rfl, fun h => ?_⟩
  show StatusOK (set_flag cpu.status FLAG_I false)
  exact statusOK_set_flag _ _ _ (by decide) (by decide) h

theorem handlerok_sei (op : Nat) : HandlerOK (σ := σ) op op_sei := by
  apply handlerOK_implied
  intro cpu
  refine ⟨rfl, fun h => ?_⟩
  show StatusOK (set_flag cpu.status FLAG_I true)
  exact statusOK_set_flag _ _ _ (by decide) (by decide) h

theorem handlerok_cld (op : Nat) : HandlerOK (σ := σ) op op_cld := by
  apply handlerOK_implied
  intro cpu
  refine ⟨rfl, fun h => ?_⟩
  show StatusOK (set_flag cpu.status FLAG_D false)
  exact statusOK_set_flag _ _ _ (by decide) (by decide) h

theorem handlerok_sed (op : Nat) : HandlerOK (σ := σ) op op_sed := by
  apply handlerOK_implied
  intro cpu
  refine ⟨rfl, fun h => ?_⟩
  show StatusOK (set_flag cpu.status FLAG_D true)
  exact statusOK_set_flag _ _ _ (by decide) (by decide) h

theorem handlerok_clv (op : Nat) : HandlerOK (σ := σ) op op_clv := by
  apply handlerOK_implied
  intro cpu
  refine ⟨rfl, fun h => ?_⟩
  show StatusOK (set_flag cpu.status FLAG_V false)
  exact statusOK_set_flag _ _ _ (by decide) (by decide) h

theorem handlerok_nop (op : Nat) : HandlerOK (σ := σ) op op_nop :=
  handlerOK_implied op (id) (fun _ => ⟨rfl, fun h => h⟩)

theorem handlerok_bpl : HandlerOK 0x10 (op_bpl B) :=
  handlerOK_branch B 0x10 FLAG_N false (by decide)
    (fun st => by rcases hg : get_flag st FLAG_N <;> simp [branch_taken, hg])

theorem handlerok_bmi : HandlerOK 0x30 (op_bmi B) :=
  handlerOK_branch B 0x30 FLAG_N true (by decide)
    (fun st => by rcases hg : get_flag st FLAG_N <;> simp [branch_taken, hg])

theorem handlerok_bvc : HandlerOK 0x50 (op_bvc B) :=
  handlerOK_branch B 0x50 FLAG_V false (by decide)
    (fun st => by rcases hg : get_flag st FLAG_V <;> simp [branch_taken, hg])

theorem handlerok_bvs : HandlerOK 0x70 (op_bvs B) :=
  handlerOK_branch B 0x70 FLAG_V true (by decide)
    (fun st => by rcases hg : get_flag st FLAG_V <;> simp [branch_taken, hg])

theorem handlerok_bcc : HandlerOK 0x90 (op_bcc B) :=
  handlerOK_branch B 0x90 FLAG_C false (by decide)
    (fun st => by rcases hg : get_flag st FLAG_C <;> simp [branch_taken, hg])

theorem handlerok_bcs : HandlerOK 0xB0 (op_bcs B) :=
  handlerOK_branch B 0xB0 FLAG_C true (by decide)
    (fun st => by rcases hg : get_flag st FLAG_C <;> simp [branch_taken, hg])

theorem handlerok_bne : HandlerOK 0xD0 (op_bne B) :=
  handlerOK_branch B 0xD0 FLAG_Z false (by decide)
    (fun st => by rcases hg : get_flag st FLAG_Z <;> simp [branch_taken, hg])

theorem handlerok_beq : HandlerOK 0xF0 (op_beq B) :=
  handlerOK_branch B 0xF0 FLAG_Z true (by decide)
    (fun st => by rcases hg : get_flag st FLAG_Z <;> simp [branch_taken, hg])

set_option maxRecDepth 10000 in
set_option maxHeartbeats 4000000 in
/-- Every dispatch-table entry preserves the live-status invariant and
charges only the extra cycles the spec allows. -/
theorem opcode_table_ok (op : Nat) : HandlerOK op (opcode_table B op) := by
  unfold opcode_table
  split
  · exact handlerok_brk B _
  · exact handlerOK_readOp B _ _ _ (addrok_izx B) coreok_ora
  · exact handlerOK_readOp B _ _ _ (addrok_zpg B) coreok_ora
  · exact handlerOK_rmwOp B _ _ _ (addrok_zpg B) coreok_asl
  · exact handlerok_php B _
  · exact handlerOK_readOp B _ _ _ addrok_imm coreok_ora
  · exact handlerok_asl_acc _
  · exact handlerOK_readOp B _ _ _ (addrok_abs B) coreok_ora
  · exact handlerOK_rmwOp B _ _ _ (addrok_abs B) coreok_asl
  · exact handlerok_bpl B
  · exact handlerOK_readOpPX B _ _ _ (addrok_izy B) coreok_ora (by decide)
  · exact handlerOK_readOp B _ _ _ (addrok_zpx B) coreok_ora
  · exact handlerOK_rmwOp B _ _ _ (addrok_zpx B) coreok_asl
  · exact handlerok_clc _
  · exact handlerOK_readOpPX B _ _ _ (addrok_aby B) coreok_ora (by decide)
  · exact handlerOK_readOpPX B _ _ _ (addrok_abx B) coreok_ora (by decide)
  · exact handlerOK_rmwOp B _ _ _ (addrok_abx B) coreok_asl
  · exact handlerok_jsr B _
  · exact handlerOK_readOp B _ _ _ (addrok_izx B) coreok_and
  · exact handlerOK_readOp B _ _ _ (addrok_zpg B) coreok_bit
  · exact handlerOK_readOp B _ _ _ (addrok_zpg B) coreok_and
  · exact handlerOK_rmwOp B _ _ _ (addrok_zpg B) coreok_rol
  · exact handlerok_plp B _
  · exact handlerOK_readOp B _ _ _ addrok_imm coreok_and
  · exact handlerok_rol_acc _
  · exact handlerOK_readOp B _ _ _ (addrok_abs B) coreok_bit
  · exact handlerOK_readOp B _ _ _ (addrok_abs B) coreok_and
  · exact handlerOK_rmwOp B _ _ _ (addrok_abs B) coreok_rol
  · exact handlerok_bmi B
  · exact handlerOK_readOpPX B _ _ _ (addrok_izy B) coreok_and (by decide)
  · exact handlerOK_readOp B _ _ _ (addrok_zpx B) coreok_and
  · exact handlerOK_rmwOp B _ _ _ (addrok_zpx B) coreok_rol
  · exact handlerok_sec _
  · exact handlerOK_readOpPX B _ _ _ (addrok_aby B) coreok_and (by decide)
  · exact handlerOK_readOpPX B _ _ _ (addrok_abx B) coreok_and (by decide)
  · exact handlerOK_rmwOp B _ _ _ (addrok_abx B) coreok_rol
  · exact handlerok_rti B _
  · exact handlerOK_readOp B _ _ _ (addrok_izx B) coreok_eor
  · exact handlerOK_readOp B _ _ _ (addrok_zpg B) coreok_eor
  · exact handlerOK_rmwOp B _ _ _ (addrok_zpg B) coreok_lsr
  · exact handlerok_pha B _
  · exact handlerOK_readOp B _ _ _ addrok_imm coreok_eor
  · exact handlerok_lsr_acc _
  · exact handlerok_jmp_abs B _
  · exact handlerOK_readOp B _ _ _ (addrok_abs B) coreok_eor
  · exact handlerOK_rmwOp B _ _ _ (addrok_abs B) coreok_lsr
  · exact handlerok_bvc B
  · exact handlerOK_readOpPX B _ _ _ (addrok_izy B) coreok_eor (by decide)
  · exact handlerOK_readOp B _ _ _ (addrok_zpx B) coreok_eor
  · exact handlerOK_rmwOp B _ _ _ (addrok_zpx B) coreok_lsr
  · exact handlerok_cli _
  · exact handlerOK_readOpPX B _ _ _ (addrok_aby B) coreok_eor (by decide)
  · exact handlerOK_readOpPX B _ _ _ (addrok_abx B) coreok_eor (by decide)
  · exact handlerOK_rmwOp B _ _ _ (addrok_abx B) coreok_lsr
  · exact handlerok_rts B _
  · exact handlerOK_readOp B _ _ _ (addrok_izx B) coreok_adc
  · exact handlerOK_readOp B _ _ _ (addrok_zpg B) coreok_adc
  · exact handlerOK_rmwOp B _ _ _ (addrok_zpg B) coreok_ror
  · exact handlerok_pla B _
  · exact handlerOK_readOp B _ _ _ addrok_imm coreok_adc
  · exact handlerok_ror_acc _
  · exact handlerok_jmp_ind B _
  · exact handlerOK_readOp B _ _ _ (addrok_abs B) coreok_adc
  · exact handlerOK_rmwOp B _ _ _ (addrok_abs B) coreok_ror
  · exact handlerok_bvs B
  · exact handlerOK_readOpPX B _ _ _ (addrok_izy B) coreok_adc (by decide)
  · exact handlerOK_readOp B _ _ _ (addrok_zpx B) coreok_adc
  · exact handlerOK_rmwOp B _ _ _ (addrok_zpx B) coreok_ror
  · exact handlerok_sei _
  · exact handlerOK_readOpPX B _ _ _ (addrok_aby B) coreok_adc (by decide)
  · exact handlerOK_readOpPX B _ _ _ (addrok_abx B) coreok_adc (by decide)
  · exact handlerOK_rmwOp B _ _ _ (addrok_abx B) coreok_ror
  · exact handlerOK_storeOp B _ _ CPU.a (addrok_izx B)
  · exact handlerOK_storeOp B _ _ CPU.y (addrok_zpg B)
  · exact handlerOK_storeOp B _ _ CPU.a (addrok_zpg B)
  · exact handlerOK_storeOp B _ _ CPU.x (addrok_zpg B)
  · exact handlerok_dey _
  · exact handlerok_txa _
  · exact handlerOK_storeOp B _ _ CPU.y (addrok_abs B)
  · exact handlerOK_storeOp B _ _ CPU.a (addrok_abs B)
  · exact handlerOK_storeOp B _ _ CPU.x (addrok_abs B)
  · exact handlerok_bcc B
  · exact handlerOK_storeOp B _ _ CPU.a (addrok_izy B)
  · exact handlerOK_storeOp B _ _ CPU.y (addrok_zpx B)
  · exact handlerOK_storeOp B _ _ CPU.a (addrok_zpx B)
  · exact handlerOK_storeOp B _ _ CPU.x (addrok_zpy B)
  · exact handlerok_tya _
  · exact handlerOK_storeOp B _ _ CPU.a (addrok_aby B)
  · exact handlerok_txs _
  · exact handlerOK_storeOp B _ _ CPU.a (addrok_abx B)
  · exact handlerOK_readOp B _ _ _ addrok_imm coreok_ldy
  · exact handlerOK_readOp B _ _ _ (addrok_izx B) coreok_lda
  · exact handlerOK_readOp B _ _ _ addrok_imm coreok_ldx
  · exact handlerOK_readOp B _ _ _ (addrok_zpg B) coreok_ldy
  · exact handlerOK_readOp B _ _ _ (addrok_zpg B) coreok_lda
  · exact handlerOK_readOp B _ _ _ (addrok_zpg B) coreok_ldx
  · exact handlerok_tay _
  · exact handlerOK_readOp B _ _ _ addrok_imm coreok_lda
  · exact handlerok_tax _
  · exact handlerOK_readOp B _ _ _ (addrok_abs B) coreok_ldy
  · exact handlerOK_readOp B _ _ _ (addrok_abs B) coreok_lda
  · exact handlerOK_readOp B _ _ _ (addrok_abs B) coreok_ldx
  · exact handlerok_bcs B
  · exact handlerOK_readOpPX B _ _ _ (addrok_izy B) coreok_lda (by decide)
  · exact handlerOK_readOp B _ _ _ (addrok_zpx B) coreok_ldy
  · exact handlerOK_readOp B _ _ _ (addrok_zpx B) coreok_lda
  · exact handlerOK_readOp B _ _ _ (addrok_zpy B) coreok_ldx
  · exact handlerok_clv _
  · exact handlerOK_readOpPX B _ _ _ (addrok_aby B) coreok_lda (by decide)
  · exact handlerok_tsx _
  · exact handlerOK_readOpPX B _ _ _ (addrok_abx B) coreok_ldy (by decide)
  · exact handlerOK_readOpPX B _ _ _ (addrok_abx B) coreok_lda (by decide)
  · exact handlerOK_readOpPX B _ _ _ (addrok_aby B) coreok_ldx (by decide)
  · exact handlerOK_readOp B _ _ _ addrok_imm coreok_cpy
  · exact handlerOK_readOp B _ _ _ (addrok_izx B) coreok_cmp
  · exact handlerOK_readOp B _ _ _ (addrok_zpg B) coreok_cpy
  · exact handlerOK_readOp B _ _ _ (addrok_zpg B) coreok_cmp
  · exact handlerOK_rmwOp B _ _ _ (addrok_zpg B) coreok_dec
  · exact handlerok_iny _
  · exact handlerOK_readOp B _ _ _ addrok_imm coreok_cmp
  · exact handlerok_dex _
  · exact handlerOK_readOp B _ _ _ (addrok_abs B) coreok_cpy
  · exact handlerOK_readOp B _ _ _ (addrok_abs B) coreok_cmp
  · exact handlerOK_rmwOp B _ _ _ (addrok_abs B) coreok_dec
  · exact handlerok_bne B
  · exact handlerOK_readOpPX B _ _ _ (addrok_izy B) coreok_cmp (by decide)
  · exact handlerOK_readOp B _ _ _ (addrok_zpx B) coreok_cmp
  · exact handlerOK_rmwOp B _ _ _ (addrok_zpx B) coreok_dec
  · exact handlerok_cld _
  · exact handlerOK_readOpPX B _ _ _ (addrok_aby B) coreok_cmp (by decide)
  · exact handlerOK_readOpPX B _ _ _ (addrok_abx B) coreok_cmp (by decide)
  · exact handlerOK_rmwOp B _ _ _ (addrok_abx B) coreok_dec
  · exact handlerOK_readOp B _ _ _ addrok_imm coreok_cpx
  · exact handlerOK_readOp B _ _ _ (addrok_izx B) coreok_sbc
  · exact handlerOK_readOp B _ _ _ (addrok_zpg B) coreok_cpx
  · exact handlerOK_readOp B _ _ _ (addrok_zpg B) coreok_sbc
  · exact handlerOK_rmwOp B _ _ _ (addrok_zpg B) coreok_inc
  · exact handlerok_inx _
  · exact handlerOK_readOp B _ _ _ addrok_imm coreok_sbc
  · exact handlerok_nop _
  · exact handlerOK_readOp B _ _ _ (addrok_abs B) coreok_cpx
  · exact handlerOK_readOp B _ _ _ (addrok_abs B) coreok_sbc
  · exact handlerOK_rmwOp B _ _ _ (addrok_abs B) coreok_inc
  · exact handlerok_beq B
  · exact handlerOK_readOpPX B _ _ _ (addrok_izy B) coreok_sbc (by decide)
  · exact handlerOK_readOp B _ _ _ (addrok_zpx B) coreok_sbc
  · exact handlerOK_rmwOp B _ _ _ (addrok_zpx B) coreok_inc
  · exact handlerok_sed _
  · exact handlerOK_readOpPX B _ _ _ (addrok_aby B) coreok_sbc (by decide)
  · exact handlerOK_readOpPX B _ _ _ (addrok_abx B) coreok_sbc (by decide)
  · exact handlerOK_rmwOp B _ _ _ (addrok_abx B) coreok_inc
  · exact handlerok_ill _

/-- The opcode byte `cpu6502_step` fetches: the bus read at PC, reduced
to a uint8. -/
def fetched_op (s : Sys σ) : Nat := (B.read s.env (s.cpu.pc % 65536)).1 % 256

/-- A trivial bus over a unit context whose every read returns the NOP
opcode (0xEA) and whose writes are dropped. -/
def busNop : BusOps Unit := ⟨fun e _ => (0xEA, e), fun e _ _ => e⟩

set_option maxRecDepth 40000 in
set_option maxHeartbeats 1000000 in
/-- C2 (amended): a non-halted `cpu6502_step` advances the 64-bit cycle
counter, modulo 2^64, by the dispatched opcode's base cost from
`opcode_cycles` plus an excess of 0, 1 or 2, where an excess of at
least 1 arises only from a taken branch or a page crossing on an
indexed read, and an excess of 2 only from a taken branch whose target
is on a different page than the instruction's end; when the sum does
not reach 2^64 the new count equals the old plus the delta exactly, so
it does not decrease. -/
theorem c2_step_cycle_accounting (s : Sys σ)
    (hhalt : s.cpu.halted = false) (hlt : s.cpu.cycles < M64) :
    ∃ e : Nat, e ≤ 2 ∧
      (cpu6502_step B s).cpu.cycles
        = (s.cpu.cycles + opcode_cycles (fetched_op B s) + e) % M64 ∧
      (1 ≤ e →
        (is_branch (fetched_op B s) = true ∧
          branch_taken (fetched_op B s) s.cpu.status = true) ∨
        (is_indexed_read (fetched_op B s) = true ∧
          (cpu6502_step B s).cpu.page_crossed = true)) ∧
      (e = 2 →
        is_branch (fetched_op B s) = true ∧
        branch_taken (fetched_op B s) s.cpu.status = true ∧
        ((s.cpu.pc + 2) % 65536) &&& 0xFF00 ≠ (cpu6502_step B s).cpu.pc &&& 0xFF00) ∧
      (s.cpu.cycles + opcode_cycles (fetched_op B s) + e < M64 →
        (cpu6502_step B s).cpu.cycles
          = s.cpu.cycles + opcode_cycles (fetched_op B s) + e ∧
        s.cpu.cycles ≤ (cpu6502_step B s).cpu.cycles) := by
  have hS1lt : (⟨{ s.cpu with
        pc := (s.cpu.pc + 1) % 65536,
        page_crossed := false,
        cycles := (s.cpu.cycles + opcode_cycles (fetched_op B s)) % M64 },
      (B.read s.env (s.cpu.pc % 65536)).2⟩ : Sys σ).cpu.cycles < M64 :=
    Nat.mod_lt _ (by norm_num [M64])
  obtain ⟨e, he2, hcyc, h1, h2⟩ :=
    (opcode_table_ok B (fetched_op B s)).2 _ hS1lt
  have hstep : cpu6502_step B s
      = opcode_table B (fetched_op B s) (⟨{ s.cpu with
        pc := (s.cpu.pc + 1) % 65536,
        page_crossed := false,
        cycles := (s.cpu.cycles + opcode_cycles (fetched_op B s)) % M64 },
      (B.read s.env (s.cpu.pc % 65536)).2⟩ : Sys σ) := by
    unfold cpu6502_step
    rw [hhalt]
    rfl
  rw [hstep]
  have eqmain : (opcode_table B (fetched_op B s) (⟨{ s.cpu with
        pc := (s.cpu.pc + 1) % 65536,
        page_crossed := false,
        cycles := (s.cpu.cycles + opcode_cycles (fetched_op B s)) % M64 },
      (B.read s.env (s.cpu.pc % 65536)).2⟩ : Sys σ)).cpu.cycles
      = (s.cpu.cycles + opcode_cycles (fetched_op B s) + e) % M64 := by
    rw [hcyc]
    show ((s.cpu.cycles + opcode_cycles (fetched_op B s)) % M64 + e) % M64 = _
    rw [Nat.mod_add_mod]
  refine ⟨e, he2, eqmain, ?_, ?_, ?_⟩
  · intro he1
    rcases h1 he1 with ⟨hb, ht⟩ | ⟨hix, hp⟩
    · exact Or.inl ⟨hb, ht⟩
    · exact Or.inr ⟨hix, hp⟩
  · intro he
    obtain ⟨hb, ht, hne⟩ := h2 he
    refine ⟨hb, ht, ?_⟩
    have hpc : ((⟨{ s.cpu with
        pc := (s.cpu.pc + 1) % 65536,
        page_crossed := false,
        cycles := (s.cpu.cycles + opcode_cycles (fetched_op B s)) % M64 },
      (B.read s.env (s.cpu.pc % 65536)).2⟩ : Sys σ).cpu.pc + 1) % 65536 = (s.cpu.pc + 2) % 65536 := by
      show ((s.cpu.pc + 1) % 65536 + 1) % 65536 = _
      rw [Nat.mod_add_mod]
    rw [hpc] at hne
    exact hne
  · intro hnov
    constructor
    · rw [eqmain, Nat.mod_eq_of_lt hnov]
    · rw [eqmain, Nat.mod_eq_of_lt hnov]
      omega

set_option maxRecDepth 40000 in
set_option maxHeartbeats 1000000 in
/-- C2 counterexample to the unqualified wording: with the uint64 cycle
counter at 2^64 - 1, stepping a NOP wraps it around to 1, so `cycles`
decreases across this step. -/
theorem c2_cycles_wrap_counterexample :
    (⟨{ cpu6502_init with cycles := M64 - 1 }, ()⟩ : Sys Unit).cpu.halted = false ∧
    (cpu6502_step busNop ⟨{ cpu6502_init with cycles := M64 - 1 }, ()⟩).cpu.cycles
      < (⟨{ cpu6502_init with cycles := M64 - 1 }, ()⟩ : Sys Unit).cpu.cycles := by
  refine ⟨rfl, ?_⟩
  have h1 : (cpu6502_step busNop
      ⟨{ cpu6502_init with cycles := M64 - 1 }, ()⟩).cpu.cycles = 1 := by
    show ((M64 - 1 + opcode_cycles 0xEA) % M64) = 1
    norm_num [M64, opcode_cycles, opcode_cycles_list]
  rw [h1]
  show 1 < M64 - 1
  norm_num [M64]

set_option maxRecDepth 40000 in
set_option maxHeartbeats 1000000 in
/-- Closed witness for C2: the accounting holds at a concrete reset-state
CPU over the NOP bus. -/
theorem c2_step_cycle_accounting_witness :
    (⟨cpu6502_init, ()⟩ : Sys Unit).cpu.halted = false ∧
    (⟨cpu6502_init, ()⟩ : Sys Unit).cpu.cycles < M64 ∧
    (∃ e : Nat, e ≤ 2 ∧
      (cpu6502_step busNop ⟨cpu6502_init, ()⟩).cpu.cycles
        = ((⟨cpu6502_init, ()⟩ : Sys Unit).cpu.cycles
            + opcode_cycles (fetched_op busNop ⟨cpu6502_init, ()⟩) + e) % M64 ∧
      (1 ≤ e →
        (is_branch (fetched_op busNop ⟨cpu6502_init, ()⟩) = true ∧
          branch_taken (fetched_op busNop ⟨cpu6502_init, ()⟩)
            (⟨cpu6502_init, ()⟩ : Sys Unit).cpu.status = true) ∨
        (is_indexed_read (fetched_op busNop ⟨cpu6502_init, ()⟩) = true ∧
          (cpu6502_step busNop ⟨cpu6502_init, ()⟩).cpu.page_crossed = true)) ∧
      (e = 2 →
        is_branch (fetched_op busNop ⟨cpu6502_init, ()⟩) = true ∧
        branch_taken (fetched_op busNop ⟨cpu6502_init, ()⟩)
          (⟨cpu6502_init, ()⟩ : Sys Unit).cpu.status = true ∧
        (((⟨cpu6502_init, ()⟩ : Sys Unit).cpu.pc + 2) % 65536) &&& 0xFF00
          ≠ (cpu6502_step busNop ⟨cpu6502_init, ()⟩).cpu.pc &&& 0xFF00) ∧
      ((⟨cpu6502_init, ()⟩ : Sys Unit).cpu.cycles
          + opcode_cycles (fetched_op busNop ⟨cpu6502_init, ()⟩) + e < M64 →
        (cpu6502_step busNop ⟨cpu6502_init, ()⟩).cpu.cycles
          = (⟨cpu6502_init, ()⟩ : Sys Unit).cpu.cycles
            + opcode_cycles (fetched_op busNop ⟨cpu6502_init, ()⟩) + e ∧
        (⟨cpu6502_init, ()⟩ : Sys Unit).cpu.cycles
          ≤ (cpu6502_step busNop ⟨cpu6502_init, ()⟩).cpu.cycles)) :=
  ⟨rfl, by norm_num [M64, cpu6502_init],
    c2_step_cycle_accounting busNop ⟨cpu6502_init, ()⟩ rfl
      (by norm_num [M64, cpu6502_init])⟩

set_option maxRecDepth 40000 in
set_option maxHeartbeats 1000000 in
/-- C4: bit 5 of the live status register stays 1 and bit 4 stays 0
across `cpu6502_step` (every opcode, PLP and RTI included),
`cpu6502_irq`, `cpu6502_nmi` and `cpu6502_reset`, and the register
`cpu6502_init` builds satisfies it. -/
theorem c4_status_live_bits :
    (∀ s : Sys σ, StatusOK s.cpu.status → StatusOK ((cpu6502_step B s).cpu.status)) ∧
    (∀ s : Sys σ, StatusOK s.cpu.status → StatusOK ((cpu6502_irq B s).cpu.status)) ∧
    (∀ s : Sys σ, StatusOK s.cpu.status → StatusOK ((cpu6502_nmi B s).cpu.status)) ∧
    (∀ s : Sys σ, StatusOK s.cpu.status → StatusOK ((cpu6502_reset B s).cpu.status)) ∧
    StatusOK cpu6502_init.status := by
  refine ⟨?_, ?_, ?_, ?_, ⟨by decide, by decide⟩⟩
  · intro s h
    by_cases hh : s.cpu.halted = true
    · simp only [cpu6502_step]
      rw [if_pos hh]
      exact h
    · simp only [cpu6502_step]
      rw [if_neg hh]
      exact (opcode_table_ok B _).1 _ h
  · intro s h
    by_cases hi : get_flag s.cpu.status FLAG_I = true
    · have hst : cpu6502_irq B s = s := by
        unfold cpu6502_irq
        rw [if_pos hi]
      rw [hst]
      exact h
    · have hst : (cpu6502_irq B s).cpu.status = set_flag s.cpu.status FLAG_I true := by
        unfold cpu6502_irq
        rw [if_neg hi]
        rfl
      rw [hst]
      exact statusOK_set_flag _ _ _ (by decide) (by decide) h
  · intro s h
    have hst : (cpu6502_nmi B s).cpu.status = set_flag s.cpu.status FLAG_I true := rfl
    rw [hst]
    exact statusOK_set_flag _ _ _ (by decide) (by decide) h
  · intro s h
    have hst : (cpu6502_reset B s).cpu.status = (s.cpu.status ||| FLAG_I) ||| FLAG_U := rfl
    rw [hst]
    exact statusOK_reset _ h

/-- Closed witness for C4: the invariant holds of the init state and is
kept by one step over the NOP bus. -/
theorem c4_status_live_bits_witness :
    StatusOK (⟨cpu6502_init, ()⟩ : Sys Unit).cpu.status ∧
    StatusOK ((cpu6502_step busNop ⟨cpu6502_init, ()⟩).cpu.status) :=
  ⟨⟨by decide, by decide⟩,
    (c4_status_live_bits busNop).1 ⟨cpu6502_init, ()⟩ ⟨by decide, by decide⟩⟩

/-- Closed witness for C3: a concrete halted system is a fixed point of
five frame-loop iterations (the frame counter stays put). -/
theorem c3_halted_frame_loop_witness :
    (⟨{ cpu6502_init with halted := true }, env0⟩ : Sys NesEnv).cpu.halted = true ∧
    ((nes_frame_body^[5]) ⟨{ cpu6502_init with halted := true }, env0⟩).env.ppu.frame =
      (⟨{ cpu6502_init with halted := true }, env0⟩ : Sys NesEnv).env.ppu.frame :=
  ⟨rfl, (c3_halted_frame_loop ⟨{ cpu6502_init with halted := true }, env0⟩ rfl rfl).2 5⟩

end Emu
